import Mathlib

/-!
Verification of the distributed-tracing teaching repository.

Part 1 embeds the three Flask services (`services/frontend/app.py`,
`services/backend/app.py`, `services/database-service/app.py`) and their
solution counterparts (`solutions/*.py`) as pure functions from the outcome
of their single outbound HTTP call to an HTTP response.

Part 2 embeds the progress checker `run.py` (its file checks and the
scoring loop of `main`).

Part 3 models the tracing SDK core (SpanContext, Propagator, Tracer,
Span lifecycle, BatchProcessor) from the specification: that core is the
OpenTelemetry library, which is not part of this repository's sources;
only its callers are.  Those definitions carry `Modelled from the spec`
doc comments.
-/

/-- JSON values as produced by Flask's `jsonify`.  Numbers are embedded as
rationals (the repository's literals are ints and decimal floats, all
exactly representable). -/
inductive Json where
  | null : Json
  | bool (b : Bool) : Json
  | num (q : ℚ) : Json
  | str (s : String) : Json
  | arr (xs : List Json) : Json
  | obj (kvs : List (String × Json)) : Json

/-- Outcome of a `requests.get` call as observed by a handler: either a
`requests.RequestException` (connection error / timeout) carrying its
message, or an HTTP response with a status code and an (assumed JSON)
body. -/
inductive FetchResult where
  | failure (msg : String) : FetchResult
  | success (status : Nat) (body : Json) : FetchResult

/-- Result of running one Flask route handler: a response with status code
and JSON body, or an unhandled Python exception escaping the handler
(which Flask turns into a generic 500 error page). -/
inductive HandlerResult where
  | ok (status : Nat) (body : Json) : HandlerResult
  | crash : HandlerResult

/-- Model of `str(e)` for the `requests.raise_for_status` HTTPError raised
on a status code `s ≥ 400`.  Both the TODO and the solution handlers
embed the same message, so its exact text is irrelevant to every claim. -/
def httpErrorMsg (s : Nat) : String := toString s ++ " Error"

/-- Python `d.get(k, default)`: `none` models the `AttributeError` raised
when the receiver is not a dict. -/
def pyGetD (j : Json) (k : String) (dflt : Json) : Option Json :=
  match j with
  | .obj kvs => some (((kvs.find? (fun kv => kv.1 == k)).map (fun kv => kv.2)).getD dflt)
  | _ => none

/-- Python `len(v)`: defined on lists, dicts and strings; `none` models the
`TypeError` raised on other values. -/
def pyLen : Json → Option Nat
  | .arr xs => some xs.length
  | .obj kvs => some kvs.length
  | .str s => some s.length
  | _ => none

/-- The error body `{"error": str(e), "service": SERVICE_NAME}` shared by
every `except requests.RequestException` branch. -/
def errBody (msg svc : String) : Json :=
  .obj [("error", .str msg), ("service", .str svc)]

/-! ## Frontend service (`services/frontend/app.py` vs `solutions/frontend_app.py`) -/

/-- `GET /health` of the frontend TODO file. -/
def frontend_health_todo : HandlerResult :=
  .ok 200 (.obj [("status", .str "healthy"), ("service", .str "frontend")])

/-- `GET /health` of the frontend solution file. -/
def frontend_health_sol : HandlerResult :=
  .ok 200 (.obj [("status", .str "healthy"), ("service", .str "frontend")])

/-- `GET /` of the frontend TODO file. -/
def frontend_index_todo : HandlerResult :=
  .ok 200 (.obj [("service", .str "frontend"), ("version", .str "1.0.0"),
    ("endpoints", .arr [.str "GET /health", .str "GET /api/users",
      .str "GET /api/orders", .str "GET /api/products"])])

/-- `GET /` of the frontend solution file. -/
def frontend_index_sol : HandlerResult :=
  .ok 200 (.obj [("service", .str "frontend"), ("version", .str "1.0.0"),
    ("endpoints", .arr [.str "GET /health", .str "GET /api/users",
      .str "GET /api/orders", .str "GET /api/products"])])

/-- `GET /api/users` of the frontend TODO file: forward to the backend,
`raise_for_status`, wrap the JSON body; on `RequestException` answer 500. -/
def frontend_get_users_todo (r : FetchResult) : HandlerResult :=
  match r with
  | .failure msg => .ok 500 (errBody msg "frontend")
  | .success s b =>
    if s ≥ 400 then .ok 500 (errBody (httpErrorMsg s) "frontend")
    else .ok 200 (.obj [("source", .str "frontend"), ("data", b)])

/-- The solution's span-attribute computation
`len(data.get("data", {}).get("users", []))` (frontend solution line 95):
`none` models the exception raised when `data` or `data["data"]` is not a
dict, or the final value has no `len`. -/
def usersCountAttr (b : Json) : Option Nat := do
  let d1 ← pyGetD b "data" (.obj [])
  let d2 ← pyGetD d1 "users" (.arr [])
  pyLen d2

/-- `GET /api/users` of the frontend solution file: same request flow, but
additionally computes the `users.count` span attribute from the body. -/
def frontend_get_users_sol (r : FetchResult) : HandlerResult :=
  match r with
  | .failure msg => .ok 500 (errBody msg "frontend")
  | .success s b =>
    if s ≥ 400 then .ok 500 (errBody (httpErrorMsg s) "frontend")
    else
      match usersCountAttr b with
      | some _ => .ok 200 (.obj [("source", .str "frontend"), ("data", b)])
      | none => .crash

/-- `GET /api/orders` of the frontend TODO file. -/
def frontend_get_orders_todo (r : FetchResult) : HandlerResult :=
  match r with
  | .failure msg => .ok 500 (errBody msg "frontend")
  | .success s b =>
    if s ≥ 400 then .ok 500 (errBody (httpErrorMsg s) "frontend")
    else .ok 200 (.obj [("source", .str "frontend"), ("data", b)])

/-- `GET /api/orders` of the frontend solution file (the added span only
records attributes that always compute). -/
def frontend_get_orders_sol (r : FetchResult) : HandlerResult :=
  match r with
  | .failure msg => .ok 500 (errBody msg "frontend")
  | .success s b =>
    if s ≥ 400 then .ok 500 (errBody (httpErrorMsg s) "frontend")
    else .ok 200 (.obj [("source", .str "frontend"), ("data", b)])

/-- `GET /api/products` of the frontend TODO file. -/
def frontend_get_products_todo (r : FetchResult) : HandlerResult :=
  match r with
  | .failure msg => .ok 500 (errBody msg "frontend")
  | .success s b =>
    if s ≥ 400 then .ok 500 (errBody (httpErrorMsg s) "frontend")
    else .ok 200 (.obj [("source", .str "frontend"), ("data", b)])

/-- `GET /api/products` of the frontend solution file. -/
def frontend_get_products_sol (r : FetchResult) : HandlerResult :=
  match r with
  | .failure msg => .ok 500 (errBody msg "frontend")
  | .success s b =>
    if s ≥ 400 then .ok 500 (errBody (httpErrorMsg s) "frontend")
    else .ok 200 (.obj [("source", .str "frontend"), ("data", b)])

/-! ## Backend service (`services/backend/app.py` vs `solutions/backend_app.py`) -/

/-- `GET /health` of the backend TODO file. -/
def backend_health_todo : HandlerResult :=
  .ok 200 (.obj [("status", .str "healthy"), ("service", .str "backend")])

/-- `GET /health` of the backend solution file. -/
def backend_health_sol : HandlerResult :=
  .ok 200 (.obj [("status", .str "healthy"), ("service", .str "backend")])

/-- `GET /` of the backend TODO file. -/
def backend_index_todo : HandlerResult :=
  .ok 200 (.obj [("service", .str "backend"), ("version", .str "1.0.0"),
    ("endpoints", .arr [.str "GET /health", .str "GET /users",
      .str "GET /orders", .str "GET /products"])])

/-- `GET /` of the backend solution file. -/
def backend_index_sol : HandlerResult :=
  .ok 200 (.obj [("service", .str "backend"), ("version", .str "1.0.0"),
    ("endpoints", .arr [.str "GET /health", .str "GET /users",
      .str "GET /orders", .str "GET /products"])])

/-- `len(data.get(key, []))` as computed by both backend files for the
response's `count` field; `none` models the exception when `data` is not a
dict or the value has no `len`. -/
def backendCount (b : Json) (key : String) : Option Nat := do
  let v ← pyGetD b key (.arr [])
  pyLen v

/-- The backend `/users`, `/orders` and `/products` handlers share one shape
(sleep, call the database service, `raise_for_status`, validate, answer with
a count field); they differ only in the count key.  TODO file version. -/
def backend_route_todo (countKey : String) (r : FetchResult) : HandlerResult :=
  match r with
  | .failure msg => .ok 500 (errBody msg "backend")
  | .success s b =>
    if s ≥ 400 then .ok 500 (errBody (httpErrorMsg s) "backend")
    else
      match backendCount b countKey with
      | some n => .ok 200 (.obj [("source", .str "backend"), ("count", .num n), ("data", b)])
      | none => .crash

/-- Backend solution version of the same three handlers: the added spans
and attributes (status code, counts, timings) do not change the response. -/
def backend_route_sol (countKey : String) (r : FetchResult) : HandlerResult :=
  match r with
  | .failure msg => .ok 500 (errBody msg "backend")
  | .success s b =>
    if s ≥ 400 then .ok 500 (errBody (httpErrorMsg s) "backend")
    else
      match backendCount b countKey with
      | some n => .ok 200 (.obj [("source", .str "backend"), ("count", .num n), ("data", b)])
      | none => .crash

/-! ## Database service (`services/database-service/app.py` vs `solutions/database_service_app.py`) -/

/-- A row of the simulated `USERS` table. -/
structure DbUser where
  id : Int
  name : String
  email : String
  role : String
deriving DecidableEq

/-- The `USERS` table (identical in the TODO and the solution file). -/
def USERS : List DbUser :=
  [⟨1, "Alice Johnson", "alice@example.com", "admin"⟩,
   ⟨2, "Bob Smith", "bob@example.com", "user"⟩,
   ⟨3, "Charlie Brown", "charlie@example.com", "user"⟩,
   ⟨4, "Diana Prince", "diana@example.com", "moderator"⟩,
   ⟨5, "Eve Wilson", "eve@example.com", "user"⟩]

/-- JSON form of a `USERS` row, as `jsonify` serialises the Python dict. -/
def userJson (u : DbUser) : Json :=
  .obj [("id", .num u.id), ("name", .str u.name),
        ("email", .str u.email), ("role", .str u.role)]

/-- A row of the simulated `ORDERS` table (`total` is a decimal literal,
embedded exactly as a rational). -/
structure DbOrder where
  id : Int
  user_id : Int
  total : ℚ
  status : String
  items : Int

/-- The `ORDERS` table. -/
def ORDERS : List DbOrder :=
  [⟨101, 1, 9999/100, "completed", 3⟩,
   ⟨102, 2, 14950/100, "pending", 5⟩,
   ⟨103, 1, 2999/100, "shipped", 1⟩,
   ⟨104, 3, 299, "completed", 2⟩,
   ⟨105, 4, 75, "processing", 4⟩]

/-- JSON form of an `ORDERS` row. -/
def orderJson (o : DbOrder) : Json :=
  .obj [("id", .num o.id), ("user_id", .num o.user_id), ("total", .num o.total),
        ("status", .str o.status), ("items", .num o.items)]

/-- A row of the simulated `PRODUCTS` table. -/
structure DbProduct where
  id : Int
  name : String
  price : ℚ
  stock : Int
  category : String

/-- The `PRODUCTS` table. -/
def PRODUCTS : List DbProduct :=
  [⟨1001, "Laptop", 99999/100, 50, "electronics"⟩,
   ⟨1002, "Headphones", 14999/100, 200, "electronics"⟩,
   ⟨1003, "Coffee Mug", 1299/100, 500, "home"⟩,
   ⟨1004, "Notebook", 599/100, 1000, "office"⟩,
   ⟨1005, "Backpack", 7999/100, 75, "accessories"⟩]

/-- JSON form of a `PRODUCTS` row. -/
def productJson (p : DbProduct) : Json :=
  .obj [("id", .num p.id), ("name", .str p.name), ("price", .num p.price),
        ("stock", .num p.stock), ("category", .str p.category)]

/-- `GET /health` of the database-service TODO file. -/
def db_health_todo : HandlerResult :=
  .ok 200 (.obj [("status", .str "healthy"), ("service", .str "database-service"),
    ("database", .str "connected")])

/-- `GET /health` of the database-service solution file. -/
def db_health_sol : HandlerResult :=
  .ok 200 (.obj [("status", .str "healthy"), ("service", .str "database-service"),
    ("database", .str "connected")])

/-- `GET /db/users` of the database-service TODO file. -/
def db_get_users_todo : HandlerResult :=
  .ok 200 (.obj [("source", .str "database-service"), ("table", .str "users"),
    ("users", .arr (USERS.map userJson))])

/-- `GET /db/users` of the database-service solution file. -/
def db_get_users_sol : HandlerResult :=
  .ok 200 (.obj [("source", .str "database-service"), ("table", .str "users"),
    ("users", .arr (USERS.map userJson))])

/-- `GET /db/orders` of the database-service TODO file. -/
def db_get_orders_todo : HandlerResult :=
  .ok 200 (.obj [("source", .str "database-service"), ("table", .str "orders"),
    ("orders", .arr (ORDERS.map orderJson))])

/-- `GET /db/orders` of the database-service solution file. -/
def db_get_orders_sol : HandlerResult :=
  .ok 200 (.obj [("source", .str "database-service"), ("table", .str "orders"),
    ("orders", .arr (ORDERS.map orderJson))])

/-- `GET /db/products` of the database-service TODO file. -/
def db_get_products_todo : HandlerResult :=
  .ok 200 (.obj [("source", .str "database-service"), ("table", .str "products"),
    ("products", .arr (PRODUCTS.map productJson))])

/-- `GET /db/products` of the database-service solution file. -/
def db_get_products_sol : HandlerResult :=
  .ok 200 (.obj [("source", .str "database-service"), ("table", .str "products"),
    ("products", .arr (PRODUCTS.map productJson))])

/-- `GET /db/user/<int:user_id>` of the database-service TODO file:
`next((u for u in USERS if u["id"] == user_id), None)`, then either the
user record or a 404 error body.  The handler only reads the table; the
embedding returns the table alongside the response to state that. -/
def db_get_user_todo (table : List DbUser) (user_id : Int) :
    HandlerResult × List DbUser :=
  match table.find? (fun u => u.id == user_id) with
  | some u => (.ok 200 (.obj [("source", .str "database-service"), ("user", userJson u)]), table)
  | none => (.ok 404 (.obj [("error", .str "User not found")]), table)

/-- `GET /db/user/<int:user_id>` of the database-service solution file
(adds `user_id`, `user_found` and `error` span attributes only). -/
def db_get_user_sol (table : List DbUser) (user_id : Int) :
    HandlerResult × List DbUser :=
  match table.find? (fun u => u.id == user_id) with
  | some u => (.ok 200 (.obj [("source", .str "database-service"), ("user", userJson u)]), table)
  | none => (.ok 404 (.obj [("error", .str "User not found")]), table)

/-- `GET /` of the database-service TODO file. -/
def db_index_todo : HandlerResult :=
  .ok 200 (.obj [("service", .str "database-service"), ("version", .str "1.0.0"),
    ("database", .str "simulated"),
    ("endpoints", .arr [.str "GET /health", .str "GET /db/users",
      .str "GET /db/orders", .str "GET /db/products", .str "GET /db/user/<id>"])])

/-- `GET /` of the database-service solution file. -/
def db_index_sol : HandlerResult :=
  .ok 200 (.obj [("service", .str "database-service"), ("version", .str "1.0.0"),
    ("database", .str "simulated"),
    ("endpoints", .arr [.str "GET /health", .str "GET /db/users",
      .str "GET /db/orders", .str "GET /db/products", .str "GET /db/user/<id>"])])

/-! ## The composed three-tier system

The frontend forwards `/api/users` to the backend's `/users` (and likewise
orders/products), and the backend forwards to the database-service's
`/db/...` routes.  The environment records, for each of the two network
hops, whether the HTTP call itself fails (`some` carries the exception
message).  A callee's response is seen by its caller as a `FetchResult`;
an unhandled callee exception is seen as Flask's generic 500 error page
(a non-JSON body, which no reachable composed run produces). -/

/-- Routes of the frontend service. -/
inductive FRoute where
  | users | orders | products | health | index

/-- Routes of the backend service. -/
inductive BRoute where
  | users | orders | products | health | index

/-- Routes of the database service. -/
inductive DRoute where
  | users | orders | products | health | index
  | user (user_id : Int)

/-- How a caller observes a callee's handler result. -/
def fetchOf : HandlerResult → FetchResult
  | .ok s b => .success s b
  | .crash => .success 500 (.str "Internal Server Error")

/-- One hop: either the network call fails with a message, or it returns
the callee's result. -/
def hopResult (hop : Option String) (callee : HandlerResult) : FetchResult :=
  match hop with
  | some msg => .failure msg
  | none => fetchOf callee

/-- Database-service responses in the TODO deployment. -/
def dbServiceTodo : DRoute → HandlerResult
  | .users => db_get_users_todo
  | .orders => db_get_orders_todo
  | .products => db_get_products_todo
  | .health => db_health_todo
  | .index => db_index_todo
  | .user uid => (db_get_user_todo USERS uid).1

/-- Database-service responses in the solution deployment. -/
def dbServiceSol : DRoute → HandlerResult
  | .users => db_get_users_sol
  | .orders => db_get_orders_sol
  | .products => db_get_products_sol
  | .health => db_health_sol
  | .index => db_index_sol
  | .user uid => (db_get_user_sol USERS uid).1

/-- Backend responses in the TODO deployment, given the backend→database
hop outcome. -/
def backendServiceTodo (bd : Option String) : BRoute → HandlerResult
  | .users => backend_route_todo "users" (hopResult bd (dbServiceTodo .users))
  | .orders => backend_route_todo "orders" (hopResult bd (dbServiceTodo .orders))
  | .products => backend_route_todo "products" (hopResult bd (dbServiceTodo .products))
  | .health => backend_health_todo
  | .index => backend_index_todo

/-- Backend responses in the solution deployment. -/
def backendServiceSol (bd : Option String) : BRoute → HandlerResult
  | .users => backend_route_sol "users" (hopResult bd (dbServiceSol .users))
  | .orders => backend_route_sol "orders" (hopResult bd (dbServiceSol .orders))
  | .products => backend_route_sol "products" (hopResult bd (dbServiceSol .products))
  | .health => backend_health_sol
  | .index => backend_index_sol

/-- Frontend responses in the TODO deployment, given both hop outcomes. -/
def frontendServiceTodo (fb bd : Option String) : FRoute → HandlerResult
  | .users => frontend_get_users_todo (hopResult fb (backendServiceTodo bd .users))
  | .orders => frontend_get_orders_todo (hopResult fb (backendServiceTodo bd .orders))
  | .products => frontend_get_products_todo (hopResult fb (backendServiceTodo bd .products))
  | .health => frontend_health_todo
  | .index => frontend_index_todo

/-- Frontend responses in the solution deployment. -/
def frontendServiceSol (fb bd : Option String) : FRoute → HandlerResult
  | .users => frontend_get_users_sol (hopResult fb (backendServiceSol bd .users))
  | .orders => frontend_get_orders_sol (hopResult fb (backendServiceSol bd .orders))
  | .products => frontend_get_products_sol (hopResult fb (backendServiceSol bd .products))
  | .health => frontend_health_sol
  | .index => frontend_index_sol

/-! ## The progress checker `run.py`

A file's content is embedded as its list of lines (Python's `re.MULTILINE`
makes `^` match at each line start; none of the checker's patterns can
match across a line break, and the checked files contain no `\r`).
The regexes used by `run.py` contain no metacharacters beyond `^`,
escaped literals, and `\s*` inside the two assignment patterns, so they
are embedded as literal prefix / substring / assignment matchers. -/

/-- Character-list prefix test (the anchored `re.search(r'^...', ...,
re.MULTILINE)`: some line starts with the literal pattern). -/
def listPrefix : List Char → List Char → Bool
  | [], _ => true
  | _ :: _, [] => false
  | c :: cs, d :: ds => c == d && listPrefix cs ds

/-- Character-list substring test (an unanchored `re.search` of a literal
pattern). -/
def listInfix (pat : List Char) : List Char → Bool
  | [] => listPrefix pat []
  | d :: ds => listPrefix pat (d :: ds) || listInfix pat ds

/-- Some line of the content starts with the literal pattern. -/
def lineStartMatch (pat : String) (content : List String) : Bool :=
  content.any (fun l => listPrefix pat.data l.data)

/-- Some line of the content contains the literal pattern. -/
def anywhereMatch (pat : String) (content : List String) : Bool :=
  content.any (fun l => listInfix pat.data l.data)

/-- Python-regex whitespace class `\s` (the checked files hold no line
breaks inside a line, so only blank and tab can occur here). -/
def isPyWs (c : Char) : Bool := c == ' ' || c == '\t'

/-- Matcher for `^lhs\s*=\s*rhs...` on one line: the line starts with
`lhs`, then optional whitespace, `=`, optional whitespace, then `rhs`. -/
def assignMatch (lhs rhs : List Char) (line : List Char) : Bool :=
  listPrefix lhs line &&
    match (line.drop lhs.length).dropWhile isPyWs with
    | '=' :: rest => listPrefix rhs (rest.dropWhile isPyWs)
    | _ => false

/-- Some line of the content matches `^lhs\s*=\s*rhs`. -/
def lineAssignMatch (lhs rhs : String) (content : List String) : Bool :=
  content.any (fun l => assignMatch lhs.data rhs.data l.data)

/-- `run.py` line 51: anchored multiline search for the three
OpenTelemetry import lines. -/
def check_file_has_otel_imports (content : List String) : Bool :=
  lineStartMatch "from opentelemetry import trace" content &&
  lineStartMatch "from opentelemetry.sdk.trace import TracerProvider" content &&
  lineStartMatch "from opentelemetry.sdk.resources import Resource" content

/-- `run.py` line 72: two anchored assignment patterns plus an unanchored
`trace\.set_tracer_provider` search. -/
def check_file_has_tracer_setup (content : List String) : Bool :=
  lineAssignMatch "resource" "Resource.create" content &&
  lineAssignMatch "provider" "TracerProvider" content &&
  anywhereMatch "trace.set_tracer_provider" content

/-- `run.py` line 93: unanchored searches for the Flask (and optionally
Requests) instrumentation calls. -/
def check_file_has_instrumentation (content : List String)
    (needs_requests : Bool) : Bool :=
  anywhereMatch "FlaskInstrumentor().instrument_app" content &&
  (!needs_requests || anywhereMatch "RequestsInstrumentor().instrument" content)

def frontendTodoText : List String := [
  "#!/usr/bin/env python3",
  "\"\"\"",
  "Frontend Service - Entry Point for User Requests",
  "\x3d\x3d\x3d\x3d\x3d\x3d\x3d\x3d\x3d\x3d\x3d\x3d\x3d\x3d\x3d\x3d\x3d\x3d\x3d\x3d\x3d\x3d\x3d\x3d\x3d\x3d\x3d\x3d\x3d\x3d\x3d\x3d\x3d\x3d\x3d\x3d\x3d\x3d\x3d\x3d\x3d\x3d\x3d\x3d\x3d\x3d\x3d\x3d\x3d",
  "This service receives user requests and forwards them to the Backend.",
  "",
  "YOUR TASK: Add OpenTelemetry tracing to this service!",
  "",
  "Endpoints:",
  "  GET /health       - Health check",
  "  GET /api/users    - Get all users (calls Backend)",
  "  GET /api/orders   - Get all orders (calls Backend)",
  "  GET /api/products - Get all products (calls Backend)",
  "\"\"\"",
  "",
  "import os",
  "import requests",
  "from flask import Flask, jsonify",
  "",
  "app = Flask(__name__)",
  "",
  "# Configuration",
  "BACKEND_URL = os.getenv(\"BACKEND_URL\", \"http://localhost:8081\")",
  "SERVICE_NAME = os.getenv(\"SERVICE_NAME\", \"frontend\")",
  "",
  "# \x3d\x3d\x3d\x3d\x3d\x3d\x3d\x3d\x3d\x3d\x3d\x3d\x3d\x3d\x3d\x3d\x3d\x3d\x3d\x3d\x3d\x3d\x3d\x3d\x3d\x3d\x3d\x3d\x3d\x3d\x3d\x3d\x3d\x3d\x3d\x3d\x3d\x3d\x3d\x3d\x3d\x3d\x3d\x3d\x3d\x3d\x3d\x3d\x3d\x3d\x3d\x3d\x3d\x3d\x3d\x3d\x3d\x3d\x3d\x3d\x3d\x3d\x3d\x3d\x3d\x3d\x3d\x3d\x3d\x3d\x3d\x3d\x3d\x3d\x3d\x3d\x3d",
  "# TODO 1: Import OpenTelemetry libraries",
  "# \x3d\x3d\x3d\x3d\x3d\x3d\x3d\x3d\x3d\x3d\x3d\x3d\x3d\x3d\x3d\x3d\x3d\x3d\x3d\x3d\x3d\x3d\x3d\x3d\x3d\x3d\x3d\x3d\x3d\x3d\x3d\x3d\x3d\x3d\x3d\x3d\x3d\x3d\x3d\x3d\x3d\x3d\x3d\x3d\x3d\x3d\x3d\x3d\x3d\x3d\x3d\x3d\x3d\x3d\x3d\x3d\x3d\x3d\x3d\x3d\x3d\x3d\x3d\x3d\x3d\x3d\x3d\x3d\x3d\x3d\x3d\x3d\x3d\x3d\x3d\x3d\x3d",
  "# Uncomment and complete the imports:",
  "#",
  "# from opentelemetry import trace",
  "# from opentelemetry.sdk.trace import TracerProvider",
  "# from opentelemetry.sdk.trace.export import BatchSpanProcessor",
  "# from opentelemetry.exporter.otlp.proto.http.trace_exporter import OTLPSpanExporter",
  "# from opentelemetry.sdk.resources import Resource",
  "# from opentelemetry.instrumentation.flask import FlaskInstrumentor",
  "# from opentelemetry.instrumentation.requests import RequestsInstrumentor",
  "",
  "",
  "# \x3d\x3d\x3d\x3d\x3d\x3d\x3d\x3d\x3d\x3d\x3d\x3d\x3d\x3d\x3d\x3d\x3d\x3d\x3d\x3d\x3d\x3d\x3d\x3d\x3d\x3d\x3d\x3d\x3d\x3d\x3d\x3d\x3d\x3d\x3d\x3d\x3d\x3d\x3d\x3d\x3d\x3d\x3d\x3d\x3d\x3d\x3d\x3d\x3d\x3d\x3d\x3d\x3d\x3d\x3d\x3d\x3d\x3d\x3d\x3d\x3d\x3d\x3d\x3d\x3d\x3d\x3d\x3d\x3d\x3d\x3d\x3d\x3d\x3d\x3d\x3d\x3d",
  "# TODO 2: Configure the Tracer Provider",
  "# \x3d\x3d\x3d\x3d\x3d\x3d\x3d\x3d\x3d\x3d\x3d\x3d\x3d\x3d\x3d\x3d\x3d\x3d\x3d\x3d\x3d\x3d\x3d\x3d\x3d\x3d\x3d\x3d\x3d\x3d\x3d\x3d\x3d\x3d\x3d\x3d\x3d\x3d\x3d\x3d\x3d\x3d\x3d\x3d\x3d\x3d\x3d\x3d\x3d\x3d\x3d\x3d\x3d\x3d\x3d\x3d\x3d\x3d\x3d\x3d\x3d\x3d\x3d\x3d\x3d\x3d\x3d\x3d\x3d\x3d\x3d\x3d\x3d\x3d\x3d\x3d\x3d",
  "# Set up OpenTelemetry with the following steps:",
  "#",
  "# 1. Create a Resource with the service name:",
  "#    resource = Resource.create(\x7b\"service.name\": SERVICE_NAME\x7d)",
  "#",
  "# 2. Create a TracerProvider with the resource:",
  "#    provider = TracerProvider(resource=resource)",
  "#",
  "# 3. Create an OTLP exporter pointing to Jaeger:",
  "#    exporter = OTLPSpanExporter(",
  "#        endpoint=os.getenv(\"OTEL_EXPORTER_OTLP_ENDPOINT\", \"http://localhost:4318\") + \"/v1/traces\"",
  "#    )",
  "#",
  "# 4. Add a BatchSpanProcessor with the exporter:",
  "#    provider.add_span_processor(BatchSpanProcessor(exporter))",
  "#",
  "# 5. Set the global tracer provider:",
  "#    trace.set_tracer_provider(provider)",
  "#",
  "# 6. Get a tracer for this module:",
  "#    tracer = trace.get_tracer(__name__)",
  "",
  "",
  "# \x3d\x3d\x3d\x3d\x3d\x3d\x3d\x3d\x3d\x3d\x3d\x3d\x3d\x3d\x3d\x3d\x3d\x3d\x3d\x3d\x3d\x3d\x3d\x3d\x3d\x3d\x3d\x3d\x3d\x3d\x3d\x3d\x3d\x3d\x3d\x3d\x3d\x3d\x3d\x3d\x3d\x3d\x3d\x3d\x3d\x3d\x3d\x3d\x3d\x3d\x3d\x3d\x3d\x3d\x3d\x3d\x3d\x3d\x3d\x3d\x3d\x3d\x3d\x3d\x3d\x3d\x3d\x3d\x3d\x3d\x3d\x3d\x3d\x3d\x3d\x3d\x3d",
  "# TODO 3: Instrument Flask and Requests",
  "# \x3d\x3d\x3d\x3d\x3d\x3d\x3d\x3d\x3d\x3d\x3d\x3d\x3d\x3d\x3d\x3d\x3d\x3d\x3d\x3d\x3d\x3d\x3d\x3d\x3d\x3d\x3d\x3d\x3d\x3d\x3d\x3d\x3d\x3d\x3d\x3d\x3d\x3d\x3d\x3d\x3d\x3d\x3d\x3d\x3d\x3d\x3d\x3d\x3d\x3d\x3d\x3d\x3d\x3d\x3d\x3d\x3d\x3d\x3d\x3d\x3d\x3d\x3d\x3d\x3d\x3d\x3d\x3d\x3d\x3d\x3d\x3d\x3d\x3d\x3d\x3d\x3d",
  "# Auto-instrument Flask to trace incoming requests:",
  "#    FlaskInstrumentor().instrument_app(app)",
  "#",
  "# Auto-instrument Requests to propagate trace context:",
  "#    RequestsInstrumentor().instrument()",
  "",
  "",
  "# \x3d\x3d\x3d\x3d\x3d\x3d\x3d\x3d\x3d\x3d\x3d\x3d\x3d\x3d\x3d\x3d\x3d\x3d\x3d\x3d\x3d\x3d\x3d\x3d\x3d\x3d\x3d\x3d\x3d\x3d\x3d\x3d\x3d\x3d\x3d\x3d\x3d\x3d\x3d\x3d\x3d\x3d\x3d\x3d\x3d\x3d\x3d\x3d\x3d\x3d\x3d\x3d\x3d\x3d\x3d\x3d\x3d\x3d\x3d\x3d\x3d\x3d\x3d\x3d\x3d\x3d\x3d\x3d\x3d\x3d\x3d\x3d\x3d\x3d\x3d\x3d\x3d",
  "# Routes",
  "# \x3d\x3d\x3d\x3d\x3d\x3d\x3d\x3d\x3d\x3d\x3d\x3d\x3d\x3d\x3d\x3d\x3d\x3d\x3d\x3d\x3d\x3d\x3d\x3d\x3d\x3d\x3d\x3d\x3d\x3d\x3d\x3d\x3d\x3d\x3d\x3d\x3d\x3d\x3d\x3d\x3d\x3d\x3d\x3d\x3d\x3d\x3d\x3d\x3d\x3d\x3d\x3d\x3d\x3d\x3d\x3d\x3d\x3d\x3d\x3d\x3d\x3d\x3d\x3d\x3d\x3d\x3d\x3d\x3d\x3d\x3d\x3d\x3d\x3d\x3d\x3d\x3d",
  "",
  "@app.route(\"/health\")",
  "def health():",
  "    \"\"\"Health check endpoint.\"\"\"",
  "    return jsonify(\x7b",
  "        \"status\": \"healthy\",",
  "        \"service\": SERVICE_NAME",
  "    \x7d)",
  "",
  "",
  "@app.route(\"/api/users\")",
  "def get_users():",
  "    \"\"\"",
  "    Get all users from the backend.",
  "",
  "    TODO 4 (Optional): Add a custom span for this operation",
  "    Example:",
  "        with tracer.start_as_current_span(\"fetch_users_from_backend\") as span:",
  "            span.set_attribute(\"backend.url\", BACKEND_URL)",
  "            response = requests.get(f\"\x7bBACKEND_URL\x7d/users\")",
  "            span.set_attribute(\"response.status_code\", response.status_code)",
  "            return jsonify(response.json())",
  "    \"\"\"",
  "    try:",
  "        response = requests.get(f\"\x7bBACKEND_URL\x7d/users\", timeout=10)",
  "        response.raise_for_status()",
  "        return jsonify(\x7b",
  "            \"source\": SERVICE_NAME,",
  "            \"data\": response.json()",
  "        \x7d)",
  "    except requests.RequestException as e:",
  "        return jsonify(\x7b",
  "            \"error\": str(e),",
  "            \"service\": SERVICE_NAME",
  "        \x7d), 500",
  "",
  "",
  "@app.route(\"/api/orders\")",
  "def get_orders():",
  "    \"\"\"Get all orders from the backend.\"\"\"",
  "    try:",
  "        response = requests.get(f\"\x7bBACKEND_URL\x7d/orders\", timeout=10)",
  "        response.raise_for_status()",
  "        return jsonify(\x7b",
  "            \"source\": SERVICE_NAME,",
  "            \"data\": response.json()",
  "        \x7d)",
  "    except requests.RequestException as e:",
  "        return jsonify(\x7b",
  "            \"error\": str(e),",
  "            \"service\": SERVICE_NAME",
  "        \x7d), 500",
  "",
  "",
  "@app.route(\"/api/products\")",
  "def get_products():",
  "    \"\"\"Get all products from the backend.\"\"\"",
  "    try:",
  "        response = requests.get(f\"\x7bBACKEND_URL\x7d/products\", timeout=10)",
  "        response.raise_for_status()",
  "        return jsonify(\x7b",
  "            \"source\": SERVICE_NAME,",
  "            \"data\": response.json()",
  "        \x7d)",
  "    except requests.RequestException as e:",
  "        return jsonify(\x7b",
  "            \"error\": str(e),",
  "            \"service\": SERVICE_NAME",
  "        \x7d), 500",
  "",
  "",
  "@app.route(\"/\")",
  "def index():",
  "    \"\"\"Root endpoint with service info.\"\"\"",
  "    return jsonify(\x7b",
  "        \"service\": SERVICE_NAME,",
  "        \"version\": \"1.0.0\",",
  "        \"endpoints\": [",
  "            \"GET /health\",",
  "            \"GET /api/users\",",
  "            \"GET /api/orders\",",
  "            \"GET /api/products\"",
  "        ]",
  "    \x7d)",
  "",
  "",
  "if __name__ == \"__main__\":",
  "    print(f\"Starting \x7bSERVICE_NAME\x7d on port 8080...\")",
  "    print(f\"Backend URL: \x7bBACKEND_URL\x7d\")",
  "    app.run(host=\"0.0.0.0\", port=8080, debug=False)",
  "",
  ""
]

def backendTodoText : List String := [
  "#!/usr/bin/env python3",
  "\"\"\"",
  "Backend Service - Business Logic Layer",
  "\x3d\x3d\x3d\x3d\x3d\x3d\x3d\x3d\x3d\x3d\x3d\x3d\x3d\x3d\x3d\x3d\x3d\x3d\x3d\x3d\x3d\x3d\x3d\x3d\x3d\x3d\x3d\x3d\x3d\x3d\x3d\x3d\x3d\x3d\x3d\x3d\x3d\x3d\x3d",
  "This service handles business logic and calls the Database Service.",
  "",
  "YOUR TASK: Add OpenTelemetry tracing to this service!",
  "",
  "Endpoints:",
  "  GET /health    - Health check",
  "  GET /users     - Get users (calls Database Service)",
  "  GET /orders    - Get orders (calls Database Service)",
  "  GET /products  - Get products (calls Database Service)",
  "\"\"\"",
  "",
  "import os",
  "import time",
  "import random",
  "import requests",
  "from flask import Flask, jsonify",
  "",
  "app = Flask(__name__)",
  "",
  "# Configuration",
  "DATABASE_SERVICE_URL = os.getenv(\"DATABASE_SERVICE_URL\", \"http://localhost:8082\")",
  "SERVICE_NAME = os.getenv(\"SERVICE_NAME\", \"backend\")",
  "",
  "# \x3d\x3d\x3d\x3d\x3d\x3d\x3d\x3d\x3d\x3d\x3d\x3d\x3d\x3d\x3d\x3d\x3d\x3d\x3d\x3d\x3d\x3d\x3d\x3d\x3d\x3d\x3d\x3d\x3d\x3d\x3d\x3d\x3d\x3d\x3d\x3d\x3d\x3d\x3d\x3d\x3d\x3d\x3d\x3d\x3d\x3d\x3d\x3d\x3d\x3d\x3d\x3d\x3d\x3d\x3d\x3d\x3d\x3d\x3d\x3d\x3d\x3d\x3d\x3d\x3d\x3d\x3d\x3d\x3d\x3d\x3d\x3d\x3d\x3d\x3d\x3d\x3d",
  "# TODO 1: Import OpenTelemetry libraries",
  "# \x3d\x3d\x3d\x3d\x3d\x3d\x3d\x3d\x3d\x3d\x3d\x3d\x3d\x3d\x3d\x3d\x3d\x3d\x3d\x3d\x3d\x3d\x3d\x3d\x3d\x3d\x3d\x3d\x3d\x3d\x3d\x3d\x3d\x3d\x3d\x3d\x3d\x3d\x3d\x3d\x3d\x3d\x3d\x3d\x3d\x3d\x3d\x3d\x3d\x3d\x3d\x3d\x3d\x3d\x3d\x3d\x3d\x3d\x3d\x3d\x3d\x3d\x3d\x3d\x3d\x3d\x3d\x3d\x3d\x3d\x3d\x3d\x3d\x3d\x3d\x3d\x3d",
  "# Uncomment and complete the imports:",
  "#",
  "# from opentelemetry import trace",
  "# from opentelemetry.sdk.trace import TracerProvider",
  "# from opentelemetry.sdk.trace.export import BatchSpanProcessor",
  "# from opentelemetry.exporter.otlp.proto.http.trace_exporter import OTLPSpanExporter",
  "# from opentelemetry.sdk.resources import Resource",
  "# from opentelemetry.instrumentation.flask import FlaskInstrumentor",
  "# from opentelemetry.instrumentation.requests import RequestsInstrumentor",
  "",
  "",
  "# \x3d\x3d\x3d\x3d\x3d\x3d\x3d\x3d\x3d\x3d\x3d\x3d\x3d\x3d\x3d\x3d\x3d\x3d\x3d\x3d\x3d\x3d\x3d\x3d\x3d\x3d\x3d\x3d\x3d\x3d\x3d\x3d\x3d\x3d\x3d\x3d\x3d\x3d\x3d\x3d\x3d\x3d\x3d\x3d\x3d\x3d\x3d\x3d\x3d\x3d\x3d\x3d\x3d\x3d\x3d\x3d\x3d\x3d\x3d\x3d\x3d\x3d\x3d\x3d\x3d\x3d\x3d\x3d\x3d\x3d\x3d\x3d\x3d\x3d\x3d\x3d\x3d",
  "# TODO 2: Configure the Tracer Provider",
  "# \x3d\x3d\x3d\x3d\x3d\x3d\x3d\x3d\x3d\x3d\x3d\x3d\x3d\x3d\x3d\x3d\x3d\x3d\x3d\x3d\x3d\x3d\x3d\x3d\x3d\x3d\x3d\x3d\x3d\x3d\x3d\x3d\x3d\x3d\x3d\x3d\x3d\x3d\x3d\x3d\x3d\x3d\x3d\x3d\x3d\x3d\x3d\x3d\x3d\x3d\x3d\x3d\x3d\x3d\x3d\x3d\x3d\x3d\x3d\x3d\x3d\x3d\x3d\x3d\x3d\x3d\x3d\x3d\x3d\x3d\x3d\x3d\x3d\x3d\x3d\x3d\x3d",
  "# Set up OpenTelemetry (same pattern as frontend, but with \"backend\" as service name):",
  "#",
  "# resource = Resource.create(\x7b\"service.name\": SERVICE_NAME\x7d)",
  "# provider = TracerProvider(resource=resource)",
  "# exporter = OTLPSpanExporter(",
  "#     endpoint=os.getenv(\"OTEL_EXPORTER_OTLP_ENDPOINT\", \"http://localhost:4318\") + \"/v1/traces\"",
  "# )",
  "# provider.add_span_processor(BatchSpanProcessor(exporter))",
  "# trace.set_tracer_provider(provider)",
  "# tracer = trace.get_tracer(__name__)",
  "",
  "",
  "# \x3d\x3d\x3d\x3d\x3d\x3d\x3d\x3d\x3d\x3d\x3d\x3d\x3d\x3d\x3d\x3d\x3d\x3d\x3d\x3d\x3d\x3d\x3d\x3d\x3d\x3d\x3d\x3d\x3d\x3d\x3d\x3d\x3d\x3d\x3d\x3d\x3d\x3d\x3d\x3d\x3d\x3d\x3d\x3d\x3d\x3d\x3d\x3d\x3d\x3d\x3d\x3d\x3d\x3d\x3d\x3d\x3d\x3d\x3d\x3d\x3d\x3d\x3d\x3d\x3d\x3d\x3d\x3d\x3d\x3d\x3d\x3d\x3d\x3d\x3d\x3d\x3d",
  "# TODO 3: Instrument Flask and Requests",
  "# \x3d\x3d\x3d\x3d\x3d\x3d\x3d\x3d\x3d\x3d\x3d\x3d\x3d\x3d\x3d\x3d\x3d\x3d\x3d\x3d\x3d\x3d\x3d\x3d\x3d\x3d\x3d\x3d\x3d\x3d\x3d\x3d\x3d\x3d\x3d\x3d\x3d\x3d\x3d\x3d\x3d\x3d\x3d\x3d\x3d\x3d\x3d\x3d\x3d\x3d\x3d\x3d\x3d\x3d\x3d\x3d\x3d\x3d\x3d\x3d\x3d\x3d\x3d\x3d\x3d\x3d\x3d\x3d\x3d\x3d\x3d\x3d\x3d\x3d\x3d\x3d\x3d",
  "# FlaskInstrumentor().instrument_app(app)",
  "# RequestsInstrumentor().instrument()",
  "",
  "",
  "# \x3d\x3d\x3d\x3d\x3d\x3d\x3d\x3d\x3d\x3d\x3d\x3d\x3d\x3d\x3d\x3d\x3d\x3d\x3d\x3d\x3d\x3d\x3d\x3d\x3d\x3d\x3d\x3d\x3d\x3d\x3d\x3d\x3d\x3d\x3d\x3d\x3d\x3d\x3d\x3d\x3d\x3d\x3d\x3d\x3d\x3d\x3d\x3d\x3d\x3d\x3d\x3d\x3d\x3d\x3d\x3d\x3d\x3d\x3d\x3d\x3d\x3d\x3d\x3d\x3d\x3d\x3d\x3d\x3d\x3d\x3d\x3d\x3d\x3d\x3d\x3d\x3d",
  "# Helper Functions",
  "# \x3d\x3d\x3d\x3d\x3d\x3d\x3d\x3d\x3d\x3d\x3d\x3d\x3d\x3d\x3d\x3d\x3d\x3d\x3d\x3d\x3d\x3d\x3d\x3d\x3d\x3d\x3d\x3d\x3d\x3d\x3d\x3d\x3d\x3d\x3d\x3d\x3d\x3d\x3d\x3d\x3d\x3d\x3d\x3d\x3d\x3d\x3d\x3d\x3d\x3d\x3d\x3d\x3d\x3d\x3d\x3d\x3d\x3d\x3d\x3d\x3d\x3d\x3d\x3d\x3d\x3d\x3d\x3d\x3d\x3d\x3d\x3d\x3d\x3d\x3d\x3d\x3d",
  "",
  "def simulate_processing(operation_name):",
  "    \"\"\"",
  "    Simulate some business logic processing.",
  "",
  "    TODO 4 (Optional): Wrap this in a custom span",
  "    Example:",
  "        with tracer.start_as_current_span(f\"process_\x7boperation_name\x7d\") as span:",
  "            span.set_attribute(\"operation\", operation_name)",
  "            delay = random.uniform(0.05, 0.15)",
  "            span.set_attribute(\"simulated_delay_ms\", delay * 1000)",
  "            time.sleep(delay)",
  "    \"\"\"",
  "    delay = random.uniform(0.05, 0.15)",
  "    time.sleep(delay)",
  "",
  "",
  "def validate_data(data, data_type):",
  "    \"\"\"",
  "    Simulate data validation.",
  "",
  "    TODO 5 (Optional): Add a validation span",
  "    \"\"\"",
  "    # Simulate validation processing",
  "    time.sleep(random.uniform(0.01, 0.05))",
  "    return True",
  "",
  "",
  "# \x3d\x3d\x3d\x3d\x3d\x3d\x3d\x3d\x3d\x3d\x3d\x3d\x3d\x3d\x3d\x3d\x3d\x3d\x3d\x3d\x3d\x3d\x3d\x3d\x3d\x3d\x3d\x3d\x3d\x3d\x3d\x3d\x3d\x3d\x3d\x3d\x3d\x3d\x3d\x3d\x3d\x3d\x3d\x3d\x3d\x3d\x3d\x3d\x3d\x3d\x3d\x3d\x3d\x3d\x3d\x3d\x3d\x3d\x3d\x3d\x3d\x3d\x3d\x3d\x3d\x3d\x3d\x3d\x3d\x3d\x3d\x3d\x3d\x3d\x3d\x3d\x3d",
  "# Routes",
  "# \x3d\x3d\x3d\x3d\x3d\x3d\x3d\x3d\x3d\x3d\x3d\x3d\x3d\x3d\x3d\x3d\x3d\x3d\x3d\x3d\x3d\x3d\x3d\x3d\x3d\x3d\x3d\x3d\x3d\x3d\x3d\x3d\x3d\x3d\x3d\x3d\x3d\x3d\x3d\x3d\x3d\x3d\x3d\x3d\x3d\x3d\x3d\x3d\x3d\x3d\x3d\x3d\x3d\x3d\x3d\x3d\x3d\x3d\x3d\x3d\x3d\x3d\x3d\x3d\x3d\x3d\x3d\x3d\x3d\x3d\x3d\x3d\x3d\x3d\x3d\x3d\x3d",
  "",
  "@app.route(\"/health\")",
  "def health():",
  "    \"\"\"Health check endpoint.\"\"\"",
  "    return jsonify(\x7b",
  "        \"status\": \"healthy\",",
  "        \"service\": SERVICE_NAME",
  "    \x7d)",
  "",
  "",
  "@app.route(\"/users\")",
  "def get_users():",
  "    \"\"\"",
  "    Get users from Database Service with business logic.",
  "    \"\"\"",
  "    try:",
  "        # Simulate business logic processing",
  "        simulate_processing(\"user_lookup\")",
  "",
  "        # Call database service",
  "        response = requests.get(f\"\x7bDATABASE_SERVICE_URL\x7d/db/users\", timeout=10)",
  "        response.raise_for_status()",
  "        data = response.json()",
  "",
  "        # Validate data",
  "        validate_data(data, \"users\")",
  "",
  "        return jsonify(\x7b",
  "            \"source\": SERVICE_NAME,",
  "            \"count\": len(data.get(\"users\", [])),",
  "            \"data\": data",
  "        \x7d)",
  "    except requests.RequestException as e:",
  "        return jsonify(\x7b",
  "            \"error\": str(e),",
  "            \"service\": SERVICE_NAME",
  "        \x7d), 500",
  "",
  "",
  "@app.route(\"/orders\")",
  "def get_orders():",
  "    \"\"\"Get orders from Database Service.\"\"\"",
  "    try:",
  "        simulate_processing(\"order_lookup\")",
  "",
  "        response = requests.get(f\"\x7bDATABASE_SERVICE_URL\x7d/db/orders\", timeout=10)",
  "        response.raise_for_status()",
  "        data = response.json()",
  "",
  "        validate_data(data, \"orders\")",
  "",
  "        # Simulate order total calculation",
  "        time.sleep(random.uniform(0.02, 0.08))",
  "",
  "        return jsonify(\x7b",
  "            \"source\": SERVICE_NAME,",
  "            \"count\": len(data.get(\"orders\", [])),",
  "            \"data\": data",
  "        \x7d)",
  "    except requests.RequestException as e:",
  "        return jsonify(\x7b",
  "            \"error\": str(e),",
  "            \"service\": SERVICE_NAME",
  "        \x7d), 500",
  "",
  "",
  "@app.route(\"/products\")",
  "def get_products():",
  "    \"\"\"Get products from Database Service.\"\"\"",
  "    try:",
  "        simulate_processing(\"product_lookup\")",
  "",
  "        response = requests.get(f\"\x7bDATABASE_SERVICE_URL\x7d/db/products\", timeout=10)",
  "        response.raise_for_status()",
  "        data = response.json()",
  "",
  "        validate_data(data, \"products\")",
  "",
  "        # Simulate inventory check",
  "        time.sleep(random.uniform(0.03, 0.1))",
  "",
  "        return jsonify(\x7b",
  "            \"source\": SERVICE_NAME,",
  "            \"count\": len(data.get(\"products\", [])),",
  "            \"data\": data",
  "        \x7d)",
  "    except requests.RequestException as e:",
  "        return jsonify(\x7b",
  "            \"error\": str(e),",
  "            \"service\": SERVICE_NAME",
  "        \x7d), 500",
  "",
  "",
  "@app.route(\"/\")",
  "def index():",
  "    \"\"\"Root endpoint with service info.\"\"\"",
  "    return jsonify(\x7b",
  "        \"service\": SERVICE_NAME,",
  "        \"version\": \"1.0.0\",",
  "        \"endpoints\": [",
  "            \"GET /health\",",
  "            \"GET /users\",",
  "            \"GET /orders\",",
  "            \"GET /products\"",
  "        ]",
  "    \x7d)",
  "",
  "",
  "if __name__ == \"__main__\":",
  "    print(f\"Starting \x7bSERVICE_NAME\x7d on port 8081...\")",
  "    print(f\"Database Service URL: \x7bDATABASE_SERVICE_URL\x7d\")",
  "    app.run(host=\"0.0.0.0\", port=8081, debug=False)",
  "",
  ""
]

def databaseTodoText : List String := [
  "#!/usr/bin/env python3",
  "\"\"\"",
  "Database Service - Data Access Layer",
  "\x3d\x3d\x3d\x3d\x3d\x3d\x3d\x3d\x3d\x3d\x3d\x3d\x3d\x3d\x3d\x3d\x3d\x3d\x3d\x3d\x3d\x3d\x3d\x3d\x3d\x3d\x3d\x3d\x3d\x3d\x3d\x3d\x3d\x3d\x3d\x3d\x3d",
  "This service simulates database operations.",
  "",
  "YOUR TASK: Add OpenTelemetry tracing to this service!",
  "",
  "Endpoints:",
  "  GET /health      - Health check",
  "  GET /db/users    - Get users from \"database\"",
  "  GET /db/orders   - Get orders from \"database\"",
  "  GET /db/products - Get products from \"database\"",
  "\"\"\"",
  "",
  "import os",
  "import time",
  "import random",
  "from flask import Flask, jsonify",
  "",
  "app = Flask(__name__)",
  "",
  "# Configuration",
  "SERVICE_NAME = os.getenv(\"SERVICE_NAME\", \"database-service\")",
  "",
  "# \x3d\x3d\x3d\x3d\x3d\x3d\x3d\x3d\x3d\x3d\x3d\x3d\x3d\x3d\x3d\x3d\x3d\x3d\x3d\x3d\x3d\x3d\x3d\x3d\x3d\x3d\x3d\x3d\x3d\x3d\x3d\x3d\x3d\x3d\x3d\x3d\x3d\x3d\x3d\x3d\x3d\x3d\x3d\x3d\x3d\x3d\x3d\x3d\x3d\x3d\x3d\x3d\x3d\x3d\x3d\x3d\x3d\x3d\x3d\x3d\x3d\x3d\x3d\x3d\x3d\x3d\x3d\x3d\x3d\x3d\x3d\x3d\x3d\x3d\x3d\x3d\x3d",
  "# TODO 1: Import OpenTelemetry libraries",
  "# \x3d\x3d\x3d\x3d\x3d\x3d\x3d\x3d\x3d\x3d\x3d\x3d\x3d\x3d\x3d\x3d\x3d\x3d\x3d\x3d\x3d\x3d\x3d\x3d\x3d\x3d\x3d\x3d\x3d\x3d\x3d\x3d\x3d\x3d\x3d\x3d\x3d\x3d\x3d\x3d\x3d\x3d\x3d\x3d\x3d\x3d\x3d\x3d\x3d\x3d\x3d\x3d\x3d\x3d\x3d\x3d\x3d\x3d\x3d\x3d\x3d\x3d\x3d\x3d\x3d\x3d\x3d\x3d\x3d\x3d\x3d\x3d\x3d\x3d\x3d\x3d\x3d",
  "# Uncomment and complete the imports:",
  "#",
  "# from opentelemetry import trace",
  "# from opentelemetry.sdk.trace import TracerProvider",
  "# from opentelemetry.sdk.trace.export import BatchSpanProcessor",
  "# from opentelemetry.exporter.otlp.proto.http.trace_exporter import OTLPSpanExporter",
  "# from opentelemetry.sdk.resources import Resource",
  "# from opentelemetry.instrumentation.flask import FlaskInstrumentor",
  "",
  "",
  "# \x3d\x3d\x3d\x3d\x3d\x3d\x3d\x3d\x3d\x3d\x3d\x3d\x3d\x3d\x3d\x3d\x3d\x3d\x3d\x3d\x3d\x3d\x3d\x3d\x3d\x3d\x3d\x3d\x3d\x3d\x3d\x3d\x3d\x3d\x3d\x3d\x3d\x3d\x3d\x3d\x3d\x3d\x3d\x3d\x3d\x3d\x3d\x3d\x3d\x3d\x3d\x3d\x3d\x3d\x3d\x3d\x3d\x3d\x3d\x3d\x3d\x3d\x3d\x3d\x3d\x3d\x3d\x3d\x3d\x3d\x3d\x3d\x3d\x3d\x3d\x3d\x3d",
  "# TODO 2: Configure the Tracer Provider",
  "# \x3d\x3d\x3d\x3d\x3d\x3d\x3d\x3d\x3d\x3d\x3d\x3d\x3d\x3d\x3d\x3d\x3d\x3d\x3d\x3d\x3d\x3d\x3d\x3d\x3d\x3d\x3d\x3d\x3d\x3d\x3d\x3d\x3d\x3d\x3d\x3d\x3d\x3d\x3d\x3d\x3d\x3d\x3d\x3d\x3d\x3d\x3d\x3d\x3d\x3d\x3d\x3d\x3d\x3d\x3d\x3d\x3d\x3d\x3d\x3d\x3d\x3d\x3d\x3d\x3d\x3d\x3d\x3d\x3d\x3d\x3d\x3d\x3d\x3d\x3d\x3d\x3d",
  "# Set up OpenTelemetry (same pattern, but with \"database-service\" as service name):",
  "#",
  "# resource = Resource.create(\x7b\"service.name\": SERVICE_NAME\x7d)",
  "# provider = TracerProvider(resource=resource)",
  "# exporter = OTLPSpanExporter(",
  "#     endpoint=os.getenv(\"OTEL_EXPORTER_OTLP_ENDPOINT\", \"http://localhost:4318\") + \"/v1/traces\"",
  "# )",
  "# provider.add_span_processor(BatchSpanProcessor(exporter))",
  "# trace.set_tracer_provider(provider)",
  "# tracer = trace.get_tracer(__name__)",
  "",
  "",
  "# \x3d\x3d\x3d\x3d\x3d\x3d\x3d\x3d\x3d\x3d\x3d\x3d\x3d\x3d\x3d\x3d\x3d\x3d\x3d\x3d\x3d\x3d\x3d\x3d\x3d\x3d\x3d\x3d\x3d\x3d\x3d\x3d\x3d\x3d\x3d\x3d\x3d\x3d\x3d\x3d\x3d\x3d\x3d\x3d\x3d\x3d\x3d\x3d\x3d\x3d\x3d\x3d\x3d\x3d\x3d\x3d\x3d\x3d\x3d\x3d\x3d\x3d\x3d\x3d\x3d\x3d\x3d\x3d\x3d\x3d\x3d\x3d\x3d\x3d\x3d\x3d\x3d",
  "# TODO 3: Instrument Flask",
  "# \x3d\x3d\x3d\x3d\x3d\x3d\x3d\x3d\x3d\x3d\x3d\x3d\x3d\x3d\x3d\x3d\x3d\x3d\x3d\x3d\x3d\x3d\x3d\x3d\x3d\x3d\x3d\x3d\x3d\x3d\x3d\x3d\x3d\x3d\x3d\x3d\x3d\x3d\x3d\x3d\x3d\x3d\x3d\x3d\x3d\x3d\x3d\x3d\x3d\x3d\x3d\x3d\x3d\x3d\x3d\x3d\x3d\x3d\x3d\x3d\x3d\x3d\x3d\x3d\x3d\x3d\x3d\x3d\x3d\x3d\x3d\x3d\x3d\x3d\x3d\x3d\x3d",
  "# FlaskInstrumentor().instrument_app(app)",
  "# Note: No RequestsInstrumentor needed here since this service doesn\x27t make HTTP calls",
  "",
  "",
  "# \x3d\x3d\x3d\x3d\x3d\x3d\x3d\x3d\x3d\x3d\x3d\x3d\x3d\x3d\x3d\x3d\x3d\x3d\x3d\x3d\x3d\x3d\x3d\x3d\x3d\x3d\x3d\x3d\x3d\x3d\x3d\x3d\x3d\x3d\x3d\x3d\x3d\x3d\x3d\x3d\x3d\x3d\x3d\x3d\x3d\x3d\x3d\x3d\x3d\x3d\x3d\x3d\x3d\x3d\x3d\x3d\x3d\x3d\x3d\x3d\x3d\x3d\x3d\x3d\x3d\x3d\x3d\x3d\x3d\x3d\x3d\x3d\x3d\x3d\x3d\x3d\x3d",
  "# Simulated Database",
  "# \x3d\x3d\x3d\x3d\x3d\x3d\x3d\x3d\x3d\x3d\x3d\x3d\x3d\x3d\x3d\x3d\x3d\x3d\x3d\x3d\x3d\x3d\x3d\x3d\x3d\x3d\x3d\x3d\x3d\x3d\x3d\x3d\x3d\x3d\x3d\x3d\x3d\x3d\x3d\x3d\x3d\x3d\x3d\x3d\x3d\x3d\x3d\x3d\x3d\x3d\x3d\x3d\x3d\x3d\x3d\x3d\x3d\x3d\x3d\x3d\x3d\x3d\x3d\x3d\x3d\x3d\x3d\x3d\x3d\x3d\x3d\x3d\x3d\x3d\x3d\x3d\x3d",
  "",
  "# Simulated user data",
  "USERS = [",
  "    \x7b\"id\": 1, \"name\": \"Alice Johnson\", \"email\": \"alice@example.com\", \"role\": \"admin\"\x7d,",
  "    \x7b\"id\": 2, \"name\": \"Bob Smith\", \"email\": \"bob@example.com\", \"role\": \"user\"\x7d,",
  "    \x7b\"id\": 3, \"name\": \"Charlie Brown\", \"email\": \"charlie@example.com\", \"role\": \"user\"\x7d,",
  "    \x7b\"id\": 4, \"name\": \"Diana Prince\", \"email\": \"diana@example.com\", \"role\": \"moderator\"\x7d,",
  "    \x7b\"id\": 5, \"name\": \"Eve Wilson\", \"email\": \"eve@example.com\", \"role\": \"user\"\x7d,",
  "]",
  "",
  "# Simulated order data",
  "ORDERS = [",
  "    \x7b\"id\": 101, \"user_id\": 1, \"total\": 99.99, \"status\": \"completed\", \"items\": 3\x7d,",
  "    \x7b\"id\": 102, \"user_id\": 2, \"total\": 149.50, \"status\": \"pending\", \"items\": 5\x7d,",
  "    \x7b\"id\": 103, \"user_id\": 1, \"total\": 29.99, \"status\": \"shipped\", \"items\": 1\x7d,",
  "    \x7b\"id\": 104, \"user_id\": 3, \"total\": 299.00, \"status\": \"completed\", \"items\": 2\x7d,",
  "    \x7b\"id\": 105, \"user_id\": 4, \"total\": 75.00, \"status\": \"processing\", \"items\": 4\x7d,",
  "]",
  "",
  "# Simulated product data",
  "PRODUCTS = [",
  "    \x7b\"id\": 1001, \"name\": \"Laptop\", \"price\": 999.99, \"stock\": 50, \"category\": \"electronics\"\x7d,",
  "    \x7b\"id\": 1002, \"name\": \"Headphones\", \"price\": 149.99, \"stock\": 200, \"category\": \"electronics\"\x7d,",
  "    \x7b\"id\": 1003, \"name\": \"Coffee Mug\", \"price\": 12.99, \"stock\": 500, \"category\": \"home\"\x7d,",
  "    \x7b\"id\": 1004, \"name\": \"Notebook\", \"price\": 5.99, \"stock\": 1000, \"category\": \"office\"\x7d,",
  "    \x7b\"id\": 1005, \"name\": \"Backpack\", \"price\": 79.99, \"stock\": 75, \"category\": \"accessories\"\x7d,",
  "]",
  "",
  "",
  "# \x3d\x3d\x3d\x3d\x3d\x3d\x3d\x3d\x3d\x3d\x3d\x3d\x3d\x3d\x3d\x3d\x3d\x3d\x3d\x3d\x3d\x3d\x3d\x3d\x3d\x3d\x3d\x3d\x3d\x3d\x3d\x3d\x3d\x3d\x3d\x3d\x3d\x3d\x3d\x3d\x3d\x3d\x3d\x3d\x3d\x3d\x3d\x3d\x3d\x3d\x3d\x3d\x3d\x3d\x3d\x3d\x3d\x3d\x3d\x3d\x3d\x3d\x3d\x3d\x3d\x3d\x3d\x3d\x3d\x3d\x3d\x3d\x3d\x3d\x3d\x3d\x3d",
  "# Database Simulation Functions",
  "# \x3d\x3d\x3d\x3d\x3d\x3d\x3d\x3d\x3d\x3d\x3d\x3d\x3d\x3d\x3d\x3d\x3d\x3d\x3d\x3d\x3d\x3d\x3d\x3d\x3d\x3d\x3d\x3d\x3d\x3d\x3d\x3d\x3d\x3d\x3d\x3d\x3d\x3d\x3d\x3d\x3d\x3d\x3d\x3d\x3d\x3d\x3d\x3d\x3d\x3d\x3d\x3d\x3d\x3d\x3d\x3d\x3d\x3d\x3d\x3d\x3d\x3d\x3d\x3d\x3d\x3d\x3d\x3d\x3d\x3d\x3d\x3d\x3d\x3d\x3d\x3d\x3d",
  "",
  "def simulate_db_query(table_name, query_type=\"SELECT\"):",
  "    \"\"\"",
  "    Simulate a database query with realistic delays.",
  "",
  "    TODO 4: Wrap this in a custom span to show database operations",
  "    Example:",
  "        with tracer.start_as_current_span(\"db_query\") as span:",
  "            span.set_attribute(\"db.system\", \"postgresql\")",
  "            span.set_attribute(\"db.operation\", query_type)",
  "            span.set_attribute(\"db.table\", table_name)",
  "",
  "            # Simulate query execution time",
  "            delay = random.uniform(0.1, 0.3)",
  "            span.set_attribute(\"db.query_time_ms\", delay * 1000)",
  "            time.sleep(delay)",
  "    \"\"\"",
  "    # Simulate database query time (100-300ms)",
  "    delay = random.uniform(0.1, 0.3)",
  "    time.sleep(delay)",
  "",
  "",
  "def simulate_connection_pool():",
  "    \"\"\"",
  "    Simulate getting a connection from pool.",
  "",
  "    TODO 5 (Optional): Add a span for connection pool operations",
  "    \"\"\"",
  "    # Simulate connection acquisition (10-50ms)",
  "    time.sleep(random.uniform(0.01, 0.05))",
  "",
  "",
  "# \x3d\x3d\x3d\x3d\x3d\x3d\x3d\x3d\x3d\x3d\x3d\x3d\x3d\x3d\x3d\x3d\x3d\x3d\x3d\x3d\x3d\x3d\x3d\x3d\x3d\x3d\x3d\x3d\x3d\x3d\x3d\x3d\x3d\x3d\x3d\x3d\x3d\x3d\x3d\x3d\x3d\x3d\x3d\x3d\x3d\x3d\x3d\x3d\x3d\x3d\x3d\x3d\x3d\x3d\x3d\x3d\x3d\x3d\x3d\x3d\x3d\x3d\x3d\x3d\x3d\x3d\x3d\x3d\x3d\x3d\x3d\x3d\x3d\x3d\x3d\x3d\x3d",
  "# Routes",
  "# \x3d\x3d\x3d\x3d\x3d\x3d\x3d\x3d\x3d\x3d\x3d\x3d\x3d\x3d\x3d\x3d\x3d\x3d\x3d\x3d\x3d\x3d\x3d\x3d\x3d\x3d\x3d\x3d\x3d\x3d\x3d\x3d\x3d\x3d\x3d\x3d\x3d\x3d\x3d\x3d\x3d\x3d\x3d\x3d\x3d\x3d\x3d\x3d\x3d\x3d\x3d\x3d\x3d\x3d\x3d\x3d\x3d\x3d\x3d\x3d\x3d\x3d\x3d\x3d\x3d\x3d\x3d\x3d\x3d\x3d\x3d\x3d\x3d\x3d\x3d\x3d\x3d",
  "",
  "@app.route(\"/health\")",
  "def health():",
  "    \"\"\"Health check endpoint.\"\"\"",
  "    return jsonify(\x7b",
  "        \"status\": \"healthy\",",
  "        \"service\": SERVICE_NAME,",
  "        \"database\": \"connected\"",
  "    \x7d)",
  "",
  "",
  "@app.route(\"/db/users\")",
  "def get_users():",
  "    \"\"\"",
  "    Get all users from the simulated database.",
  "    \"\"\"",
  "    # Simulate connection pool",
  "    simulate_connection_pool()",
  "",
  "    # Simulate database query",
  "    simulate_db_query(\"users\", \"SELECT\")",
  "",
  "    return jsonify(\x7b",
  "        \"source\": SERVICE_NAME,",
  "        \"table\": \"users\",",
  "        \"users\": USERS",
  "    \x7d)",
  "",
  "",
  "@app.route(\"/db/orders\")",
  "def get_orders():",
  "    \"\"\"Get all orders from the simulated database.\"\"\"",
  "    simulate_connection_pool()",
  "    simulate_db_query(\"orders\", \"SELECT\")",
  "",
  "    return jsonify(\x7b",
  "        \"source\": SERVICE_NAME,",
  "        \"table\": \"orders\",",
  "        \"orders\": ORDERS",
  "    \x7d)",
  "",
  "",
  "@app.route(\"/db/products\")",
  "def get_products():",
  "    \"\"\"Get all products from the simulated database.\"\"\"",
  "    simulate_connection_pool()",
  "    simulate_db_query(\"products\", \"SELECT\")",
  "",
  "    return jsonify(\x7b",
  "        \"source\": SERVICE_NAME,",
  "        \"table\": \"products\",",
  "        \"products\": PRODUCTS",
  "    \x7d)",
  "",
  "",
  "@app.route(\"/db/user/<int:user_id>\")",
  "def get_user(user_id):",
  "    \"\"\"Get a specific user by ID.\"\"\"",
  "    simulate_connection_pool()",
  "    simulate_db_query(\"users\", \"SELECT WHERE\")",
  "",
  "    user = next((u for u in USERS if u[\"id\"] == user_id), None)",
  "    if user:",
  "        return jsonify(\x7b",
  "            \"source\": SERVICE_NAME,",
  "            \"user\": user",
  "        \x7d)",
  "    return jsonify(\x7b\"error\": \"User not found\"\x7d), 404",
  "",
  "",
  "@app.route(\"/\")",
  "def index():",
  "    \"\"\"Root endpoint with service info.\"\"\"",
  "    return jsonify(\x7b",
  "        \"service\": SERVICE_NAME,",
  "        \"version\": \"1.0.0\",",
  "        \"database\": \"simulated\",",
  "        \"endpoints\": [",
  "            \"GET /health\",",
  "            \"GET /db/users\",",
  "            \"GET /db/orders\",",
  "            \"GET /db/products\",",
  "            \"GET /db/user/<id>\"",
  "        ]",
  "    \x7d)",
  "",
  "",
  "if __name__ == \"__main__\":",
  "    print(f\"Starting \x7bSERVICE_NAME\x7d on port 8082...\")",
  "    print(\"Database: Simulated (in-memory)\")",
  "    app.run(host=\"0.0.0.0\", port=8082, debug=False)",
  "",
  ""
]

def frontendSolutionText : List String := [
  "#!/usr/bin/env python3",
  "\"\"\"",
  "SOLUTION: Frontend Service with OpenTelemetry Tracing",
  "\x3d\x3d\x3d\x3d\x3d\x3d\x3d\x3d\x3d\x3d\x3d\x3d\x3d\x3d\x3d\x3d\x3d\x3d\x3d\x3d\x3d\x3d\x3d\x3d\x3d\x3d\x3d\x3d\x3d\x3d\x3d\x3d\x3d\x3d\x3d\x3d\x3d\x3d\x3d\x3d\x3d\x3d\x3d\x3d\x3d\x3d\x3d\x3d\x3d\x3d\x3d\x3d\x3d\x3d",
  "This is the complete solution for the frontend service instrumentation.",
  "Students should try to complete the TODO file first before looking here!",
  "\"\"\"",
  "",
  "import os",
  "import requests",
  "from flask import Flask, jsonify",
  "",
  "# \x3d\x3d\x3d\x3d\x3d\x3d\x3d\x3d\x3d\x3d\x3d\x3d\x3d\x3d\x3d\x3d\x3d\x3d\x3d\x3d\x3d\x3d\x3d\x3d\x3d\x3d\x3d\x3d\x3d\x3d\x3d\x3d\x3d\x3d\x3d\x3d\x3d\x3d\x3d\x3d\x3d\x3d\x3d\x3d\x3d\x3d\x3d\x3d\x3d\x3d\x3d\x3d\x3d\x3d\x3d\x3d\x3d\x3d\x3d\x3d\x3d\x3d\x3d\x3d\x3d\x3d\x3d\x3d\x3d\x3d\x3d\x3d\x3d\x3d\x3d\x3d\x3d",
  "# SOLUTION: OpenTelemetry imports",
  "# \x3d\x3d\x3d\x3d\x3d\x3d\x3d\x3d\x3d\x3d\x3d\x3d\x3d\x3d\x3d\x3d\x3d\x3d\x3d\x3d\x3d\x3d\x3d\x3d\x3d\x3d\x3d\x3d\x3d\x3d\x3d\x3d\x3d\x3d\x3d\x3d\x3d\x3d\x3d\x3d\x3d\x3d\x3d\x3d\x3d\x3d\x3d\x3d\x3d\x3d\x3d\x3d\x3d\x3d\x3d\x3d\x3d\x3d\x3d\x3d\x3d\x3d\x3d\x3d\x3d\x3d\x3d\x3d\x3d\x3d\x3d\x3d\x3d\x3d\x3d\x3d\x3d",
  "from opentelemetry import trace",
  "from opentelemetry.sdk.trace import TracerProvider",
  "from opentelemetry.sdk.trace.export import BatchSpanProcessor",
  "from opentelemetry.exporter.otlp.proto.http.trace_exporter import OTLPSpanExporter",
  "from opentelemetry.sdk.resources import Resource",
  "from opentelemetry.instrumentation.flask import FlaskInstrumentor",
  "from opentelemetry.instrumentation.requests import RequestsInstrumentor",
  "",
  "app = Flask(__name__)",
  "",
  "# Configuration",
  "BACKEND_URL = os.getenv(\"BACKEND_URL\", \"http://localhost:8081\")",
  "SERVICE_NAME = os.getenv(\"SERVICE_NAME\", \"frontend\")",
  "",
  "# \x3d\x3d\x3d\x3d\x3d\x3d\x3d\x3d\x3d\x3d\x3d\x3d\x3d\x3d\x3d\x3d\x3d\x3d\x3d\x3d\x3d\x3d\x3d\x3d\x3d\x3d\x3d\x3d\x3d\x3d\x3d\x3d\x3d\x3d\x3d\x3d\x3d\x3d\x3d\x3d\x3d\x3d\x3d\x3d\x3d\x3d\x3d\x3d\x3d\x3d\x3d\x3d\x3d\x3d\x3d\x3d\x3d\x3d\x3d\x3d\x3d\x3d\x3d\x3d\x3d\x3d\x3d\x3d\x3d\x3d\x3d\x3d\x3d\x3d\x3d\x3d\x3d",
  "# SOLUTION: Configure the Tracer Provider",
  "# \x3d\x3d\x3d\x3d\x3d\x3d\x3d\x3d\x3d\x3d\x3d\x3d\x3d\x3d\x3d\x3d\x3d\x3d\x3d\x3d\x3d\x3d\x3d\x3d\x3d\x3d\x3d\x3d\x3d\x3d\x3d\x3d\x3d\x3d\x3d\x3d\x3d\x3d\x3d\x3d\x3d\x3d\x3d\x3d\x3d\x3d\x3d\x3d\x3d\x3d\x3d\x3d\x3d\x3d\x3d\x3d\x3d\x3d\x3d\x3d\x3d\x3d\x3d\x3d\x3d\x3d\x3d\x3d\x3d\x3d\x3d\x3d\x3d\x3d\x3d\x3d\x3d",
  "",
  "# 1. Create a Resource with the service name",
  "resource = Resource.create(\x7b",
  "    \"service.name\": SERVICE_NAME,",
  "    \"service.version\": \"1.0.0\",",
  "\x7d)",
  "",
  "# 2. Create a TracerProvider with the resource",
  "provider = TracerProvider(resource=resource)",
  "",
  "# 3. Create an OTLP exporter pointing to Jaeger",
  "exporter = OTLPSpanExporter(",
  "    endpoint=os.getenv(\"OTEL_EXPORTER_OTLP_ENDPOINT\", \"http://localhost:4318\") + \"/v1/traces\"",
  ")",
  "",
  "# 4. Add a BatchSpanProcessor with the exporter",
  "provider.add_span_processor(BatchSpanProcessor(exporter))",
  "",
  "# 5. Set the global tracer provider",
  "trace.set_tracer_provider(provider)",
  "",
  "# 6. Get a tracer for this module",
  "tracer = trace.get_tracer(__name__)",
  "",
  "# \x3d\x3d\x3d\x3d\x3d\x3d\x3d\x3d\x3d\x3d\x3d\x3d\x3d\x3d\x3d\x3d\x3d\x3d\x3d\x3d\x3d\x3d\x3d\x3d\x3d\x3d\x3d\x3d\x3d\x3d\x3d\x3d\x3d\x3d\x3d\x3d\x3d\x3d\x3d\x3d\x3d\x3d\x3d\x3d\x3d\x3d\x3d\x3d\x3d\x3d\x3d\x3d\x3d\x3d\x3d\x3d\x3d\x3d\x3d\x3d\x3d\x3d\x3d\x3d\x3d\x3d\x3d\x3d\x3d\x3d\x3d\x3d\x3d\x3d\x3d\x3d\x3d",
  "# SOLUTION: Instrument Flask and Requests",
  "# \x3d\x3d\x3d\x3d\x3d\x3d\x3d\x3d\x3d\x3d\x3d\x3d\x3d\x3d\x3d\x3d\x3d\x3d\x3d\x3d\x3d\x3d\x3d\x3d\x3d\x3d\x3d\x3d\x3d\x3d\x3d\x3d\x3d\x3d\x3d\x3d\x3d\x3d\x3d\x3d\x3d\x3d\x3d\x3d\x3d\x3d\x3d\x3d\x3d\x3d\x3d\x3d\x3d\x3d\x3d\x3d\x3d\x3d\x3d\x3d\x3d\x3d\x3d\x3d\x3d\x3d\x3d\x3d\x3d\x3d\x3d\x3d\x3d\x3d\x3d\x3d\x3d",
  "",
  "# Auto-instrument Flask to trace incoming requests",
  "FlaskInstrumentor().instrument_app(app)",
  "",
  "# Auto-instrument Requests to propagate trace context",
  "RequestsInstrumentor().instrument()",
  "",
  "",
  "# \x3d\x3d\x3d\x3d\x3d\x3d\x3d\x3d\x3d\x3d\x3d\x3d\x3d\x3d\x3d\x3d\x3d\x3d\x3d\x3d\x3d\x3d\x3d\x3d\x3d\x3d\x3d\x3d\x3d\x3d\x3d\x3d\x3d\x3d\x3d\x3d\x3d\x3d\x3d\x3d\x3d\x3d\x3d\x3d\x3d\x3d\x3d\x3d\x3d\x3d\x3d\x3d\x3d\x3d\x3d\x3d\x3d\x3d\x3d\x3d\x3d\x3d\x3d\x3d\x3d\x3d\x3d\x3d\x3d\x3d\x3d\x3d\x3d\x3d\x3d\x3d\x3d",
  "# Routes",
  "# \x3d\x3d\x3d\x3d\x3d\x3d\x3d\x3d\x3d\x3d\x3d\x3d\x3d\x3d\x3d\x3d\x3d\x3d\x3d\x3d\x3d\x3d\x3d\x3d\x3d\x3d\x3d\x3d\x3d\x3d\x3d\x3d\x3d\x3d\x3d\x3d\x3d\x3d\x3d\x3d\x3d\x3d\x3d\x3d\x3d\x3d\x3d\x3d\x3d\x3d\x3d\x3d\x3d\x3d\x3d\x3d\x3d\x3d\x3d\x3d\x3d\x3d\x3d\x3d\x3d\x3d\x3d\x3d\x3d\x3d\x3d\x3d\x3d\x3d\x3d\x3d\x3d",
  "",
  "@app.route(\"/health\")",
  "def health():",
  "    \"\"\"Health check endpoint.\"\"\"",
  "    return jsonify(\x7b",
  "        \"status\": \"healthy\",",
  "        \"service\": SERVICE_NAME",
  "    \x7d)",
  "",
  "",
  "@app.route(\"/api/users\")",
  "def get_users():",
  "    \"\"\"Get all users from the backend with custom span.\"\"\"",
  "    # SOLUTION: Custom span example",
  "    with tracer.start_as_current_span(\"fetch_users_from_backend\") as span:",
  "        span.set_attribute(\"backend.url\", BACKEND_URL)",
  "        span.set_attribute(\"operation\", \"get_users\")",
  "",
  "        try:",
  "            response = requests.get(f\"\x7bBACKEND_URL\x7d/users\", timeout=10)",
  "            span.set_attribute(\"response.status_code\", response.status_code)",
  "            response.raise_for_status()",
  "",
  "            data = response.json()",
  "            span.set_attribute(\"users.count\", len(data.get(\"data\", \x7b\x7d).get(\"users\", [])))",
  "",
  "            return jsonify(\x7b",
  "                \"source\": SERVICE_NAME,",
  "                \"data\": data",
  "            \x7d)",
  "        except requests.RequestException as e:",
  "            span.set_attribute(\"error\", True)",
  "            span.set_attribute(\"error.message\", str(e))",
  "            return jsonify(\x7b",
  "                \"error\": str(e),",
  "                \"service\": SERVICE_NAME",
  "            \x7d), 500",
  "",
  "",
  "@app.route(\"/api/orders\")",
  "def get_orders():",
  "    \"\"\"Get all orders from the backend.\"\"\"",
  "    with tracer.start_as_current_span(\"fetch_orders_from_backend\") as span:",
  "        span.set_attribute(\"backend.url\", BACKEND_URL)",
  "",
  "        try:",
  "            response = requests.get(f\"\x7bBACKEND_URL\x7d/orders\", timeout=10)",
  "            span.set_attribute(\"response.status_code\", response.status_code)",
  "            response.raise_for_status()",
  "            return jsonify(\x7b",
  "                \"source\": SERVICE_NAME,",
  "                \"data\": response.json()",
  "            \x7d)",
  "        except requests.RequestException as e:",
  "            span.set_attribute(\"error\", True)",
  "            return jsonify(\x7b",
  "                \"error\": str(e),",
  "                \"service\": SERVICE_NAME",
  "            \x7d), 500",
  "",
  "",
  "@app.route(\"/api/products\")",
  "def get_products():",
  "    \"\"\"Get all products from the backend.\"\"\"",
  "    with tracer.start_as_current_span(\"fetch_products_from_backend\") as span:",
  "        span.set_attribute(\"backend.url\", BACKEND_URL)",
  "",
  "        try:",
  "            response = requests.get(f\"\x7bBACKEND_URL\x7d/products\", timeout=10)",
  "            span.set_attribute(\"response.status_code\", response.status_code)",
  "            response.raise_for_status()",
  "            return jsonify(\x7b",
  "                \"source\": SERVICE_NAME,",
  "                \"data\": response.json()",
  "            \x7d)",
  "        except requests.RequestException as e:",
  "            span.set_attribute(\"error\", True)",
  "            return jsonify(\x7b",
  "                \"error\": str(e),",
  "                \"service\": SERVICE_NAME",
  "            \x7d), 500",
  "",
  "",
  "@app.route(\"/\")",
  "def index():",
  "    \"\"\"Root endpoint with service info.\"\"\"",
  "    return jsonify(\x7b",
  "        \"service\": SERVICE_NAME,",
  "        \"version\": \"1.0.0\",",
  "        \"endpoints\": [",
  "            \"GET /health\",",
  "            \"GET /api/users\",",
  "            \"GET /api/orders\",",
  "            \"GET /api/products\"",
  "        ]",
  "    \x7d)",
  "",
  "",
  "if __name__ == \"__main__\":",
  "    print(f\"Starting \x7bSERVICE_NAME\x7d on port 8080...\")",
  "    print(f\"Backend URL: \x7bBACKEND_URL\x7d\")",
  "    print(f\"OTLP Endpoint: \x7bos.getenv(\x27OTEL_EXPORTER_OTLP_ENDPOINT\x27, \x27http://localhost:4318\x27)\x7d\")",
  "    app.run(host=\"0.0.0.0\", port=8080, debug=False)"
]

def backendSolutionText : List String := [
  "#!/usr/bin/env python3",
  "\"\"\"",
  "SOLUTION: Backend Service with OpenTelemetry Tracing",
  "\x3d\x3d\x3d\x3d\x3d\x3d\x3d\x3d\x3d\x3d\x3d\x3d\x3d\x3d\x3d\x3d\x3d\x3d\x3d\x3d\x3d\x3d\x3d\x3d\x3d\x3d\x3d\x3d\x3d\x3d\x3d\x3d\x3d\x3d\x3d\x3d\x3d\x3d\x3d\x3d\x3d\x3d\x3d\x3d\x3d\x3d\x3d\x3d\x3d\x3d\x3d\x3d\x3d",
  "This is the complete solution for the backend service instrumentation.",
  "Students should try to complete the TODO file first before looking here!",
  "\"\"\"",
  "",
  "import os",
  "import time",
  "import random",
  "import requests",
  "from flask import Flask, jsonify",
  "",
  "# \x3d\x3d\x3d\x3d\x3d\x3d\x3d\x3d\x3d\x3d\x3d\x3d\x3d\x3d\x3d\x3d\x3d\x3d\x3d\x3d\x3d\x3d\x3d\x3d\x3d\x3d\x3d\x3d\x3d\x3d\x3d\x3d\x3d\x3d\x3d\x3d\x3d\x3d\x3d\x3d\x3d\x3d\x3d\x3d\x3d\x3d\x3d\x3d\x3d\x3d\x3d\x3d\x3d\x3d\x3d\x3d\x3d\x3d\x3d\x3d\x3d\x3d\x3d\x3d\x3d\x3d\x3d\x3d\x3d\x3d\x3d\x3d\x3d\x3d\x3d\x3d\x3d",
  "# SOLUTION: OpenTelemetry imports",
  "# \x3d\x3d\x3d\x3d\x3d\x3d\x3d\x3d\x3d\x3d\x3d\x3d\x3d\x3d\x3d\x3d\x3d\x3d\x3d\x3d\x3d\x3d\x3d\x3d\x3d\x3d\x3d\x3d\x3d\x3d\x3d\x3d\x3d\x3d\x3d\x3d\x3d\x3d\x3d\x3d\x3d\x3d\x3d\x3d\x3d\x3d\x3d\x3d\x3d\x3d\x3d\x3d\x3d\x3d\x3d\x3d\x3d\x3d\x3d\x3d\x3d\x3d\x3d\x3d\x3d\x3d\x3d\x3d\x3d\x3d\x3d\x3d\x3d\x3d\x3d\x3d\x3d",
  "from opentelemetry import trace",
  "from opentelemetry.sdk.trace import TracerProvider",
  "from opentelemetry.sdk.trace.export import BatchSpanProcessor",
  "from opentelemetry.exporter.otlp.proto.http.trace_exporter import OTLPSpanExporter",
  "from opentelemetry.sdk.resources import Resource",
  "from opentelemetry.instrumentation.flask import FlaskInstrumentor",
  "from opentelemetry.instrumentation.requests import RequestsInstrumentor",
  "",
  "app = Flask(__name__)",
  "",
  "# Configuration",
  "DATABASE_SERVICE_URL = os.getenv(\"DATABASE_SERVICE_URL\", \"http://localhost:8082\")",
  "SERVICE_NAME = os.getenv(\"SERVICE_NAME\", \"backend\")",
  "",
  "# \x3d\x3d\x3d\x3d\x3d\x3d\x3d\x3d\x3d\x3d\x3d\x3d\x3d\x3d\x3d\x3d\x3d\x3d\x3d\x3d\x3d\x3d\x3d\x3d\x3d\x3d\x3d\x3d\x3d\x3d\x3d\x3d\x3d\x3d\x3d\x3d\x3d\x3d\x3d\x3d\x3d\x3d\x3d\x3d\x3d\x3d\x3d\x3d\x3d\x3d\x3d\x3d\x3d\x3d\x3d\x3d\x3d\x3d\x3d\x3d\x3d\x3d\x3d\x3d\x3d\x3d\x3d\x3d\x3d\x3d\x3d\x3d\x3d\x3d\x3d\x3d\x3d",
  "# SOLUTION: Configure the Tracer Provider",
  "# \x3d\x3d\x3d\x3d\x3d\x3d\x3d\x3d\x3d\x3d\x3d\x3d\x3d\x3d\x3d\x3d\x3d\x3d\x3d\x3d\x3d\x3d\x3d\x3d\x3d\x3d\x3d\x3d\x3d\x3d\x3d\x3d\x3d\x3d\x3d\x3d\x3d\x3d\x3d\x3d\x3d\x3d\x3d\x3d\x3d\x3d\x3d\x3d\x3d\x3d\x3d\x3d\x3d\x3d\x3d\x3d\x3d\x3d\x3d\x3d\x3d\x3d\x3d\x3d\x3d\x3d\x3d\x3d\x3d\x3d\x3d\x3d\x3d\x3d\x3d\x3d\x3d",
  "",
  "resource = Resource.create(\x7b",
  "    \"service.name\": SERVICE_NAME,",
  "    \"service.version\": \"1.0.0\",",
  "\x7d)",
  "",
  "provider = TracerProvider(resource=resource)",
  "",
  "exporter = OTLPSpanExporter(",
  "    endpoint=os.getenv(\"OTEL_EXPORTER_OTLP_ENDPOINT\", \"http://localhost:4318\") + \"/v1/traces\"",
  ")",
  "",
  "provider.add_span_processor(BatchSpanProcessor(exporter))",
  "trace.set_tracer_provider(provider)",
  "tracer = trace.get_tracer(__name__)",
  "",
  "# \x3d\x3d\x3d\x3d\x3d\x3d\x3d\x3d\x3d\x3d\x3d\x3d\x3d\x3d\x3d\x3d\x3d\x3d\x3d\x3d\x3d\x3d\x3d\x3d\x3d\x3d\x3d\x3d\x3d\x3d\x3d\x3d\x3d\x3d\x3d\x3d\x3d\x3d\x3d\x3d\x3d\x3d\x3d\x3d\x3d\x3d\x3d\x3d\x3d\x3d\x3d\x3d\x3d\x3d\x3d\x3d\x3d\x3d\x3d\x3d\x3d\x3d\x3d\x3d\x3d\x3d\x3d\x3d\x3d\x3d\x3d\x3d\x3d\x3d\x3d\x3d\x3d",
  "# SOLUTION: Instrument Flask and Requests",
  "# \x3d\x3d\x3d\x3d\x3d\x3d\x3d\x3d\x3d\x3d\x3d\x3d\x3d\x3d\x3d\x3d\x3d\x3d\x3d\x3d\x3d\x3d\x3d\x3d\x3d\x3d\x3d\x3d\x3d\x3d\x3d\x3d\x3d\x3d\x3d\x3d\x3d\x3d\x3d\x3d\x3d\x3d\x3d\x3d\x3d\x3d\x3d\x3d\x3d\x3d\x3d\x3d\x3d\x3d\x3d\x3d\x3d\x3d\x3d\x3d\x3d\x3d\x3d\x3d\x3d\x3d\x3d\x3d\x3d\x3d\x3d\x3d\x3d\x3d\x3d\x3d\x3d",
  "",
  "FlaskInstrumentor().instrument_app(app)",
  "RequestsInstrumentor().instrument()",
  "",
  "",
  "# \x3d\x3d\x3d\x3d\x3d\x3d\x3d\x3d\x3d\x3d\x3d\x3d\x3d\x3d\x3d\x3d\x3d\x3d\x3d\x3d\x3d\x3d\x3d\x3d\x3d\x3d\x3d\x3d\x3d\x3d\x3d\x3d\x3d\x3d\x3d\x3d\x3d\x3d\x3d\x3d\x3d\x3d\x3d\x3d\x3d\x3d\x3d\x3d\x3d\x3d\x3d\x3d\x3d\x3d\x3d\x3d\x3d\x3d\x3d\x3d\x3d\x3d\x3d\x3d\x3d\x3d\x3d\x3d\x3d\x3d\x3d\x3d\x3d\x3d\x3d\x3d\x3d",
  "# Helper Functions with Custom Spans",
  "# \x3d\x3d\x3d\x3d\x3d\x3d\x3d\x3d\x3d\x3d\x3d\x3d\x3d\x3d\x3d\x3d\x3d\x3d\x3d\x3d\x3d\x3d\x3d\x3d\x3d\x3d\x3d\x3d\x3d\x3d\x3d\x3d\x3d\x3d\x3d\x3d\x3d\x3d\x3d\x3d\x3d\x3d\x3d\x3d\x3d\x3d\x3d\x3d\x3d\x3d\x3d\x3d\x3d\x3d\x3d\x3d\x3d\x3d\x3d\x3d\x3d\x3d\x3d\x3d\x3d\x3d\x3d\x3d\x3d\x3d\x3d\x3d\x3d\x3d\x3d\x3d\x3d",
  "",
  "def simulate_processing(operation_name):",
  "    \"\"\"Simulate some business logic processing with custom span.\"\"\"",
  "    with tracer.start_as_current_span(f\"process_\x7boperation_name\x7d\") as span:",
  "        span.set_attribute(\"operation\", operation_name)",
  "        delay = random.uniform(0.05, 0.15)",
  "        span.set_attribute(\"simulated_delay_ms\", delay * 1000)",
  "        time.sleep(delay)",
  "",
  "",
  "def validate_data(data, data_type):",
  "    \"\"\"Simulate data validation with custom span.\"\"\"",
  "    with tracer.start_as_current_span(\"validate_data\") as span:",
  "        span.set_attribute(\"data_type\", data_type)",
  "        delay = random.uniform(0.01, 0.05)",
  "        span.set_attribute(\"validation_time_ms\", delay * 1000)",
  "        time.sleep(delay)",
  "        span.set_attribute(\"validation_result\", \"success\")",
  "        return True",
  "",
  "",
  "# \x3d\x3d\x3d\x3d\x3d\x3d\x3d\x3d\x3d\x3d\x3d\x3d\x3d\x3d\x3d\x3d\x3d\x3d\x3d\x3d\x3d\x3d\x3d\x3d\x3d\x3d\x3d\x3d\x3d\x3d\x3d\x3d\x3d\x3d\x3d\x3d\x3d\x3d\x3d\x3d\x3d\x3d\x3d\x3d\x3d\x3d\x3d\x3d\x3d\x3d\x3d\x3d\x3d\x3d\x3d\x3d\x3d\x3d\x3d\x3d\x3d\x3d\x3d\x3d\x3d\x3d\x3d\x3d\x3d\x3d\x3d\x3d\x3d\x3d\x3d\x3d\x3d",
  "# Routes",
  "# \x3d\x3d\x3d\x3d\x3d\x3d\x3d\x3d\x3d\x3d\x3d\x3d\x3d\x3d\x3d\x3d\x3d\x3d\x3d\x3d\x3d\x3d\x3d\x3d\x3d\x3d\x3d\x3d\x3d\x3d\x3d\x3d\x3d\x3d\x3d\x3d\x3d\x3d\x3d\x3d\x3d\x3d\x3d\x3d\x3d\x3d\x3d\x3d\x3d\x3d\x3d\x3d\x3d\x3d\x3d\x3d\x3d\x3d\x3d\x3d\x3d\x3d\x3d\x3d\x3d\x3d\x3d\x3d\x3d\x3d\x3d\x3d\x3d\x3d\x3d\x3d\x3d",
  "",
  "@app.route(\"/health\")",
  "def health():",
  "    \"\"\"Health check endpoint.\"\"\"",
  "    return jsonify(\x7b",
  "        \"status\": \"healthy\",",
  "        \"service\": SERVICE_NAME",
  "    \x7d)",
  "",
  "",
  "@app.route(\"/users\")",
  "def get_users():",
  "    \"\"\"Get users from Database Service with business logic.\"\"\"",
  "    with tracer.start_as_current_span(\"get_users_business_logic\") as span:",
  "        span.set_attribute(\"database_service.url\", DATABASE_SERVICE_URL)",
  "",
  "        try:",
  "            # Simulate business logic processing",
  "            simulate_processing(\"user_lookup\")",
  "",
  "            # Call database service",
  "            response = requests.get(f\"\x7bDATABASE_SERVICE_URL\x7d/db/users\", timeout=10)",
  "            span.set_attribute(\"db_response.status_code\", response.status_code)",
  "            response.raise_for_status()",
  "            data = response.json()",
  "",
  "            # Validate data",
  "            validate_data(data, \"users\")",
  "",
  "            user_count = len(data.get(\"users\", []))",
  "            span.set_attribute(\"users.count\", user_count)",
  "",
  "            return jsonify(\x7b",
  "                \"source\": SERVICE_NAME,",
  "                \"count\": user_count,",
  "                \"data\": data",
  "            \x7d)",
  "        except requests.RequestException as e:",
  "            span.set_attribute(\"error\", True)",
  "            span.set_attribute(\"error.message\", str(e))",
  "            return jsonify(\x7b",
  "                \"error\": str(e),",
  "                \"service\": SERVICE_NAME",
  "            \x7d), 500",
  "",
  "",
  "@app.route(\"/orders\")",
  "def get_orders():",
  "    \"\"\"Get orders from Database Service.\"\"\"",
  "    with tracer.start_as_current_span(\"get_orders_business_logic\") as span:",
  "        try:",
  "            simulate_processing(\"order_lookup\")",
  "",
  "            response = requests.get(f\"\x7bDATABASE_SERVICE_URL\x7d/db/orders\", timeout=10)",
  "            span.set_attribute(\"db_response.status_code\", response.status_code)",
  "            response.raise_for_status()",
  "            data = response.json()",
  "",
  "            validate_data(data, \"orders\")",
  "",
  "            # Simulate order total calculation",
  "            with tracer.start_as_current_span(\"calculate_order_totals\") as calc_span:",
  "                delay = random.uniform(0.02, 0.08)",
  "                calc_span.set_attribute(\"calculation_time_ms\", delay * 1000)",
  "                time.sleep(delay)",
  "",
  "            return jsonify(\x7b",
  "                \"source\": SERVICE_NAME,",
  "                \"count\": len(data.get(\"orders\", [])),",
  "                \"data\": data",
  "            \x7d)",
  "        except requests.RequestException as e:",
  "            span.set_attribute(\"error\", True)",
  "            return jsonify(\x7b",
  "                \"error\": str(e),",
  "                \"service\": SERVICE_NAME",
  "            \x7d), 500",
  "",
  "",
  "@app.route(\"/products\")",
  "def get_products():",
  "    \"\"\"Get products from Database Service.\"\"\"",
  "    with tracer.start_as_current_span(\"get_products_business_logic\") as span:",
  "        try:",
  "            simulate_processing(\"product_lookup\")",
  "",
  "            response = requests.get(f\"\x7bDATABASE_SERVICE_URL\x7d/db/products\", timeout=10)",
  "            span.set_attribute(\"db_response.status_code\", response.status_code)",
  "            response.raise_for_status()",
  "            data = response.json()",
  "",
  "            validate_data(data, \"products\")",
  "",
  "            # Simulate inventory check",
  "            with tracer.start_as_current_span(\"check_inventory\") as inv_span:",
  "                delay = random.uniform(0.03, 0.1)",
  "                inv_span.set_attribute(\"inventory_check_time_ms\", delay * 1000)",
  "                time.sleep(delay)",
  "",
  "            return jsonify(\x7b",
  "                \"source\": SERVICE_NAME,",
  "                \"count\": len(data.get(\"products\", [])),",
  "                \"data\": data",
  "            \x7d)",
  "        except requests.RequestException as e:",
  "            span.set_attribute(\"error\", True)",
  "            return jsonify(\x7b",
  "                \"error\": str(e),",
  "                \"service\": SERVICE_NAME",
  "            \x7d), 500",
  "",
  "",
  "@app.route(\"/\")",
  "def index():",
  "    \"\"\"Root endpoint with service info.\"\"\"",
  "    return jsonify(\x7b",
  "        \"service\": SERVICE_NAME,",
  "        \"version\": \"1.0.0\",",
  "        \"endpoints\": [",
  "            \"GET /health\",",
  "            \"GET /users\",",
  "            \"GET /orders\",",
  "            \"GET /products\"",
  "        ]",
  "    \x7d)",
  "",
  "",
  "if __name__ == \"__main__\":",
  "    print(f\"Starting \x7bSERVICE_NAME\x7d on port 8081...\")",
  "    print(f\"Database Service URL: \x7bDATABASE_SERVICE_URL\x7d\")",
  "    app.run(host=\"0.0.0.0\", port=8081, debug=False)",
  "",
  ""
]

def databaseSolutionText : List String := [
  "#!/usr/bin/env python3",
  "\"\"\"",
  "SOLUTION: Database Service with OpenTelemetry Tracing",
  "\x3d\x3d\x3d\x3d\x3d\x3d\x3d\x3d\x3d\x3d\x3d\x3d\x3d\x3d\x3d\x3d\x3d\x3d\x3d\x3d\x3d\x3d\x3d\x3d\x3d\x3d\x3d\x3d\x3d\x3d\x3d\x3d\x3d\x3d\x3d\x3d\x3d\x3d\x3d\x3d\x3d\x3d\x3d\x3d\x3d\x3d\x3d\x3d\x3d\x3d\x3d\x3d\x3d\x3d",
  "This is the complete solution for the database service instrumentation.",
  "Students should try to complete the TODO file first before looking here!",
  "\"\"\"",
  "",
  "import os",
  "import time",
  "import random",
  "from flask import Flask, jsonify",
  "",
  "# \x3d\x3d\x3d\x3d\x3d\x3d\x3d\x3d\x3d\x3d\x3d\x3d\x3d\x3d\x3d\x3d\x3d\x3d\x3d\x3d\x3d\x3d\x3d\x3d\x3d\x3d\x3d\x3d\x3d\x3d\x3d\x3d\x3d\x3d\x3d\x3d\x3d\x3d\x3d\x3d\x3d\x3d\x3d\x3d\x3d\x3d\x3d\x3d\x3d\x3d\x3d\x3d\x3d\x3d\x3d\x3d\x3d\x3d\x3d\x3d\x3d\x3d\x3d\x3d\x3d\x3d\x3d\x3d\x3d\x3d\x3d\x3d\x3d\x3d\x3d\x3d\x3d",
  "# SOLUTION: OpenTelemetry imports",
  "# \x3d\x3d\x3d\x3d\x3d\x3d\x3d\x3d\x3d\x3d\x3d\x3d\x3d\x3d\x3d\x3d\x3d\x3d\x3d\x3d\x3d\x3d\x3d\x3d\x3d\x3d\x3d\x3d\x3d\x3d\x3d\x3d\x3d\x3d\x3d\x3d\x3d\x3d\x3d\x3d\x3d\x3d\x3d\x3d\x3d\x3d\x3d\x3d\x3d\x3d\x3d\x3d\x3d\x3d\x3d\x3d\x3d\x3d\x3d\x3d\x3d\x3d\x3d\x3d\x3d\x3d\x3d\x3d\x3d\x3d\x3d\x3d\x3d\x3d\x3d\x3d\x3d",
  "from opentelemetry import trace",
  "from opentelemetry.sdk.trace import TracerProvider",
  "from opentelemetry.sdk.trace.export import BatchSpanProcessor",
  "from opentelemetry.exporter.otlp.proto.http.trace_exporter import OTLPSpanExporter",
  "from opentelemetry.sdk.resources import Resource",
  "from opentelemetry.instrumentation.flask import FlaskInstrumentor",
  "",
  "app = Flask(__name__)",
  "",
  "# Configuration",
  "SERVICE_NAME = os.getenv(\"SERVICE_NAME\", \"database-service\")",
  "",
  "# \x3d\x3d\x3d\x3d\x3d\x3d\x3d\x3d\x3d\x3d\x3d\x3d\x3d\x3d\x3d\x3d\x3d\x3d\x3d\x3d\x3d\x3d\x3d\x3d\x3d\x3d\x3d\x3d\x3d\x3d\x3d\x3d\x3d\x3d\x3d\x3d\x3d\x3d\x3d\x3d\x3d\x3d\x3d\x3d\x3d\x3d\x3d\x3d\x3d\x3d\x3d\x3d\x3d\x3d\x3d\x3d\x3d\x3d\x3d\x3d\x3d\x3d\x3d\x3d\x3d\x3d\x3d\x3d\x3d\x3d\x3d\x3d\x3d\x3d\x3d\x3d\x3d",
  "# SOLUTION: Configure the Tracer Provider",
  "# \x3d\x3d\x3d\x3d\x3d\x3d\x3d\x3d\x3d\x3d\x3d\x3d\x3d\x3d\x3d\x3d\x3d\x3d\x3d\x3d\x3d\x3d\x3d\x3d\x3d\x3d\x3d\x3d\x3d\x3d\x3d\x3d\x3d\x3d\x3d\x3d\x3d\x3d\x3d\x3d\x3d\x3d\x3d\x3d\x3d\x3d\x3d\x3d\x3d\x3d\x3d\x3d\x3d\x3d\x3d\x3d\x3d\x3d\x3d\x3d\x3d\x3d\x3d\x3d\x3d\x3d\x3d\x3d\x3d\x3d\x3d\x3d\x3d\x3d\x3d\x3d\x3d",
  "",
  "resource = Resource.create(\x7b",
  "    \"service.name\": SERVICE_NAME,",
  "    \"service.version\": \"1.0.0\",",
  "\x7d)",
  "",
  "provider = TracerProvider(resource=resource)",
  "",
  "exporter = OTLPSpanExporter(",
  "    endpoint=os.getenv(\"OTEL_EXPORTER_OTLP_ENDPOINT\", \"http://localhost:4318\") + \"/v1/traces\"",
  ")",
  "",
  "provider.add_span_processor(BatchSpanProcessor(exporter))",
  "trace.set_tracer_provider(provider)",
  "tracer = trace.get_tracer(__name__)",
  "",
  "# \x3d\x3d\x3d\x3d\x3d\x3d\x3d\x3d\x3d\x3d\x3d\x3d\x3d\x3d\x3d\x3d\x3d\x3d\x3d\x3d\x3d\x3d\x3d\x3d\x3d\x3d\x3d\x3d\x3d\x3d\x3d\x3d\x3d\x3d\x3d\x3d\x3d\x3d\x3d\x3d\x3d\x3d\x3d\x3d\x3d\x3d\x3d\x3d\x3d\x3d\x3d\x3d\x3d\x3d\x3d\x3d\x3d\x3d\x3d\x3d\x3d\x3d\x3d\x3d\x3d\x3d\x3d\x3d\x3d\x3d\x3d\x3d\x3d\x3d\x3d\x3d\x3d",
  "# SOLUTION: Instrument Flask",
  "# \x3d\x3d\x3d\x3d\x3d\x3d\x3d\x3d\x3d\x3d\x3d\x3d\x3d\x3d\x3d\x3d\x3d\x3d\x3d\x3d\x3d\x3d\x3d\x3d\x3d\x3d\x3d\x3d\x3d\x3d\x3d\x3d\x3d\x3d\x3d\x3d\x3d\x3d\x3d\x3d\x3d\x3d\x3d\x3d\x3d\x3d\x3d\x3d\x3d\x3d\x3d\x3d\x3d\x3d\x3d\x3d\x3d\x3d\x3d\x3d\x3d\x3d\x3d\x3d\x3d\x3d\x3d\x3d\x3d\x3d\x3d\x3d\x3d\x3d\x3d\x3d\x3d",
  "",
  "FlaskInstrumentor().instrument_app(app)",
  "",
  "",
  "# \x3d\x3d\x3d\x3d\x3d\x3d\x3d\x3d\x3d\x3d\x3d\x3d\x3d\x3d\x3d\x3d\x3d\x3d\x3d\x3d\x3d\x3d\x3d\x3d\x3d\x3d\x3d\x3d\x3d\x3d\x3d\x3d\x3d\x3d\x3d\x3d\x3d\x3d\x3d\x3d\x3d\x3d\x3d\x3d\x3d\x3d\x3d\x3d\x3d\x3d\x3d\x3d\x3d\x3d\x3d\x3d\x3d\x3d\x3d\x3d\x3d\x3d\x3d\x3d\x3d\x3d\x3d\x3d\x3d\x3d\x3d\x3d\x3d\x3d\x3d\x3d\x3d",
  "# Simulated Database",
  "# \x3d\x3d\x3d\x3d\x3d\x3d\x3d\x3d\x3d\x3d\x3d\x3d\x3d\x3d\x3d\x3d\x3d\x3d\x3d\x3d\x3d\x3d\x3d\x3d\x3d\x3d\x3d\x3d\x3d\x3d\x3d\x3d\x3d\x3d\x3d\x3d\x3d\x3d\x3d\x3d\x3d\x3d\x3d\x3d\x3d\x3d\x3d\x3d\x3d\x3d\x3d\x3d\x3d\x3d\x3d\x3d\x3d\x3d\x3d\x3d\x3d\x3d\x3d\x3d\x3d\x3d\x3d\x3d\x3d\x3d\x3d\x3d\x3d\x3d\x3d\x3d\x3d",
  "",
  "USERS = [",
  "    \x7b\"id\": 1, \"name\": \"Alice Johnson\", \"email\": \"alice@example.com\", \"role\": \"admin\"\x7d,",
  "    \x7b\"id\": 2, \"name\": \"Bob Smith\", \"email\": \"bob@example.com\", \"role\": \"user\"\x7d,",
  "    \x7b\"id\": 3, \"name\": \"Charlie Brown\", \"email\": \"charlie@example.com\", \"role\": \"user\"\x7d,",
  "    \x7b\"id\": 4, \"name\": \"Diana Prince\", \"email\": \"diana@example.com\", \"role\": \"moderator\"\x7d,",
  "    \x7b\"id\": 5, \"name\": \"Eve Wilson\", \"email\": \"eve@example.com\", \"role\": \"user\"\x7d,",
  "]",
  "",
  "ORDERS = [",
  "    \x7b\"id\": 101, \"user_id\": 1, \"total\": 99.99, \"status\": \"completed\", \"items\": 3\x7d,",
  "    \x7b\"id\": 102, \"user_id\": 2, \"total\": 149.50, \"status\": \"pending\", \"items\": 5\x7d,",
  "    \x7b\"id\": 103, \"user_id\": 1, \"total\": 29.99, \"status\": \"shipped\", \"items\": 1\x7d,",
  "    \x7b\"id\": 104, \"user_id\": 3, \"total\": 299.00, \"status\": \"completed\", \"items\": 2\x7d,",
  "    \x7b\"id\": 105, \"user_id\": 4, \"total\": 75.00, \"status\": \"processing\", \"items\": 4\x7d,",
  "]",
  "",
  "PRODUCTS = [",
  "    \x7b\"id\": 1001, \"name\": \"Laptop\", \"price\": 999.99, \"stock\": 50, \"category\": \"electronics\"\x7d,",
  "    \x7b\"id\": 1002, \"name\": \"Headphones\", \"price\": 149.99, \"stock\": 200, \"category\": \"electronics\"\x7d,",
  "    \x7b\"id\": 1003, \"name\": \"Coffee Mug\", \"price\": 12.99, \"stock\": 500, \"category\": \"home\"\x7d,",
  "    \x7b\"id\": 1004, \"name\": \"Notebook\", \"price\": 5.99, \"stock\": 1000, \"category\": \"office\"\x7d,",
  "    \x7b\"id\": 1005, \"name\": \"Backpack\", \"price\": 79.99, \"stock\": 75, \"category\": \"accessories\"\x7d,",
  "]",
  "",
  "",
  "# \x3d\x3d\x3d\x3d\x3d\x3d\x3d\x3d\x3d\x3d\x3d\x3d\x3d\x3d\x3d\x3d\x3d\x3d\x3d\x3d\x3d\x3d\x3d\x3d\x3d\x3d\x3d\x3d\x3d\x3d\x3d\x3d\x3d\x3d\x3d\x3d\x3d\x3d\x3d\x3d\x3d\x3d\x3d\x3d\x3d\x3d\x3d\x3d\x3d\x3d\x3d\x3d\x3d\x3d\x3d\x3d\x3d\x3d\x3d\x3d\x3d\x3d\x3d\x3d\x3d\x3d\x3d\x3d\x3d\x3d\x3d\x3d\x3d\x3d\x3d\x3d\x3d",
  "# Database Simulation Functions with Custom Spans",
  "# \x3d\x3d\x3d\x3d\x3d\x3d\x3d\x3d\x3d\x3d\x3d\x3d\x3d\x3d\x3d\x3d\x3d\x3d\x3d\x3d\x3d\x3d\x3d\x3d\x3d\x3d\x3d\x3d\x3d\x3d\x3d\x3d\x3d\x3d\x3d\x3d\x3d\x3d\x3d\x3d\x3d\x3d\x3d\x3d\x3d\x3d\x3d\x3d\x3d\x3d\x3d\x3d\x3d\x3d\x3d\x3d\x3d\x3d\x3d\x3d\x3d\x3d\x3d\x3d\x3d\x3d\x3d\x3d\x3d\x3d\x3d\x3d\x3d\x3d\x3d\x3d\x3d",
  "",
  "def simulate_db_query(table_name, query_type=\"SELECT\"):",
  "    \"\"\"Simulate a database query with custom span.\"\"\"",
  "    with tracer.start_as_current_span(\"db_query\") as span:",
  "        span.set_attribute(\"db.system\", \"postgresql\")",
  "        span.set_attribute(\"db.operation\", query_type)",
  "        span.set_attribute(\"db.table\", table_name)",
  "        span.set_attribute(\"db.statement\", f\"\x7bquery_type\x7d * FROM \x7btable_name\x7d\")",
  "",
  "        # Simulate query execution time (100-300ms)",
  "        delay = random.uniform(0.1, 0.3)",
  "        span.set_attribute(\"db.query_time_ms\", delay * 1000)",
  "        time.sleep(delay)",
  "",
  "",
  "def simulate_connection_pool():",
  "    \"\"\"Simulate getting a connection from pool with custom span.\"\"\"",
  "    with tracer.start_as_current_span(\"connection_pool_acquire\") as span:",
  "        span.set_attribute(\"db.pool.active_connections\", random.randint(5, 15))",
  "        span.set_attribute(\"db.pool.max_connections\", 20)",
  "",
  "        # Simulate connection acquisition (10-50ms)",
  "        delay = random.uniform(0.01, 0.05)",
  "        span.set_attribute(\"db.pool.acquire_time_ms\", delay * 1000)",
  "        time.sleep(delay)",
  "",
  "",
  "# \x3d\x3d\x3d\x3d\x3d\x3d\x3d\x3d\x3d\x3d\x3d\x3d\x3d\x3d\x3d\x3d\x3d\x3d\x3d\x3d\x3d\x3d\x3d\x3d\x3d\x3d\x3d\x3d\x3d\x3d\x3d\x3d\x3d\x3d\x3d\x3d\x3d\x3d\x3d\x3d\x3d\x3d\x3d\x3d\x3d\x3d\x3d\x3d\x3d\x3d\x3d\x3d\x3d\x3d\x3d\x3d\x3d\x3d\x3d\x3d\x3d\x3d\x3d\x3d\x3d\x3d\x3d\x3d\x3d\x3d\x3d\x3d\x3d\x3d\x3d\x3d\x3d",
  "# Routes",
  "# \x3d\x3d\x3d\x3d\x3d\x3d\x3d\x3d\x3d\x3d\x3d\x3d\x3d\x3d\x3d\x3d\x3d\x3d\x3d\x3d\x3d\x3d\x3d\x3d\x3d\x3d\x3d\x3d\x3d\x3d\x3d\x3d\x3d\x3d\x3d\x3d\x3d\x3d\x3d\x3d\x3d\x3d\x3d\x3d\x3d\x3d\x3d\x3d\x3d\x3d\x3d\x3d\x3d\x3d\x3d\x3d\x3d\x3d\x3d\x3d\x3d\x3d\x3d\x3d\x3d\x3d\x3d\x3d\x3d\x3d\x3d\x3d\x3d\x3d\x3d\x3d\x3d",
  "",
  "@app.route(\"/health\")",
  "def health():",
  "    \"\"\"Health check endpoint.\"\"\"",
  "    return jsonify(\x7b",
  "        \"status\": \"healthy\",",
  "        \"service\": SERVICE_NAME,",
  "        \"database\": \"connected\"",
  "    \x7d)",
  "",
  "",
  "@app.route(\"/db/users\")",
  "def get_users():",
  "    \"\"\"Get all users from the simulated database.\"\"\"",
  "    with tracer.start_as_current_span(\"fetch_users\") as span:",
  "        span.set_attribute(\"table\", \"users\")",
  "",
  "        # Simulate connection pool",
  "        simulate_connection_pool()",
  "",
  "        # Simulate database query",
  "        simulate_db_query(\"users\", \"SELECT\")",
  "",
  "        span.set_attribute(\"rows_returned\", len(USERS))",
  "",
  "        return jsonify(\x7b",
  "            \"source\": SERVICE_NAME,",
  "            \"table\": \"users\",",
  "            \"users\": USERS",
  "        \x7d)",
  "",
  "",
  "@app.route(\"/db/orders\")",
  "def get_orders():",
  "    \"\"\"Get all orders from the simulated database.\"\"\"",
  "    with tracer.start_as_current_span(\"fetch_orders\") as span:",
  "        span.set_attribute(\"table\", \"orders\")",
  "",
  "        simulate_connection_pool()",
  "        simulate_db_query(\"orders\", \"SELECT\")",
  "",
  "        span.set_attribute(\"rows_returned\", len(ORDERS))",
  "",
  "        return jsonify(\x7b",
  "            \"source\": SERVICE_NAME,",
  "            \"table\": \"orders\",",
  "            \"orders\": ORDERS",
  "        \x7d)",
  "",
  "",
  "@app.route(\"/db/products\")",
  "def get_products():",
  "    \"\"\"Get all products from the simulated database.\"\"\"",
  "    with tracer.start_as_current_span(\"fetch_products\") as span:",
  "        span.set_attribute(\"table\", \"products\")",
  "",
  "        simulate_connection_pool()",
  "        simulate_db_query(\"products\", \"SELECT\")",
  "",
  "        span.set_attribute(\"rows_returned\", len(PRODUCTS))",
  "",
  "        return jsonify(\x7b",
  "            \"source\": SERVICE_NAME,",
  "            \"table\": \"products\",",
  "            \"products\": PRODUCTS",
  "        \x7d)",
  "",
  "",
  "@app.route(\"/db/user/<int:user_id>\")",
  "def get_user(user_id):",
  "    \"\"\"Get a specific user by ID.\"\"\"",
  "    with tracer.start_as_current_span(\"fetch_user_by_id\") as span:",
  "        span.set_attribute(\"user_id\", user_id)",
  "",
  "        simulate_connection_pool()",
  "        simulate_db_query(\"users\", \"SELECT WHERE\")",
  "",
  "        user = next((u for u in USERS if u[\"id\"] == user_id), None)",
  "        if user:",
  "            span.set_attribute(\"user_found\", True)",
  "            return jsonify(\x7b",
  "                \"source\": SERVICE_NAME,",
  "                \"user\": user",
  "            \x7d)",
  "",
  "        span.set_attribute(\"user_found\", False)",
  "        span.set_attribute(\"error\", True)",
  "        return jsonify(\x7b\"error\": \"User not found\"\x7d), 404",
  "",
  "",
  "@app.route(\"/\")",
  "def index():",
  "    \"\"\"Root endpoint with service info.\"\"\"",
  "    return jsonify(\x7b",
  "        \"service\": SERVICE_NAME,",
  "        \"version\": \"1.0.0\",",
  "        \"database\": \"simulated\",",
  "        \"endpoints\": [",
  "            \"GET /health\",",
  "            \"GET /db/users\",",
  "            \"GET /db/orders\",",
  "            \"GET /db/products\",",
  "            \"GET /db/user/<id>\"",
  "        ]",
  "    \x7d)",
  "",
  "",
  "if __name__ == \"__main__\":",
  "    print(f\"Starting \x7bSERVICE_NAME\x7d on port 8082...\")",
  "    print(\"Database: Simulated (in-memory)\")",
  "    app.run(host=\"0.0.0.0\", port=8082, debug=False)",
  "",
  ""
]

/-! ## `run.py` `main`: task table and scoring -/

/-- The task table of `run.py` `main` (number, points); the check functions
themselves poll Docker/HTTP state, so each run is abstracted by the map
`results` from task number to pass/fail. -/
def tasksTable : List (Nat × Nat) := [(1, 25), (2, 25), (3, 20), (4, 15), (5, 15)]

/-- The loop's `continue` condition `specific_task and num != specific_task`:
`specific_task` is `None` or the parsed `--task` integer, and Python
truthiness makes `0` behave like `None`. -/
def skipTask (specific : Option Int) (num : Nat) : Bool :=
  match specific with
  | none => false
  | some t => t != 0 && (num : Int) != t

/-- `total_points` accumulated by the loop. -/
def totalPoints (specific : Option Int) : Nat :=
  ((tasksTable.filter (fun p => !skipTask specific p.1)).map (fun p => p.2)).sum

/-- `earned_points` accumulated by the loop, given each task's outcome. -/
def earnedPoints (results : Nat → Bool) (specific : Option Int) : Nat :=
  ((tasksTable.filter (fun p => !skipTask specific p.1 && results p.1)).map
    (fun p => p.2)).sum

/-- `main`'s exit status: `percentage = earned/total*100 if total > 0 else 0`
and `return 0 if percentage >= 70 else 1`.  The float comparison is
embedded exactly (`100*earned ≥ 70*total`): on every reachable
`(earned, total)` pair — subset sums of the 5 point values — the IEEE
double computation and the exact comparison agree, the boundary case
being `70/100*100`, which rounds to exactly `70.0`. -/
def mainExitCode (results : Nat → Bool) (specific : Option Int) : Nat :=
  if 0 < totalPoints specific ∧
      70 * totalPoints specific ≤ 100 * earnedPoints results specific
  then 0 else 1

/-! ## The tracing SDK core

The SpanContext / Tracer / Propagator / BatchProcessor core that the
services link against is the OpenTelemetry library: it is not part of this
repository's sources, only its callers and the specification's §2–§8
describe it.  Every definition below is therefore modelled from the spec. -/

/-- Modelled from the spec: the missing SDK's `SpanContext` — immutable
identifiers (128-bit trace id, 64-bit span id, sampling flag) threaded
through a call chain (§3). -/
structure SpanContext where
  traceId : Nat
  spanId : Nat
  sampled : Bool
deriving DecidableEq

/-- A context is valid when its identifiers fit in 128 and 64 bits (§3). -/
def validContext (c : SpanContext) : Prop :=
  c.traceId < 2 ^ 128 ∧ c.spanId < 2 ^ 64

/-- Lowercase hex digit for a value below 16. -/
def hexChar (d : Nat) : Char :=
  if d < 10 then Char.ofNat (48 + d) else Char.ofNat (87 + d)

/-- Fixed-width lowercase hex rendering, most significant digit first. -/
def hexChars : Nat → Nat → List Char
  | 0, _ => []
  | k + 1, n => hexChars k (n / 16) ++ [hexChar (n % 16)]

/-- Hex digit value of a character, `none` on non-hex-digit input (only
lowercase is accepted, per the spec's fixed text encoding, §4.2). -/
def hexVal (c : Char) : Option Nat :=
  if '0' ≤ c && c ≤ '9' then some (c.toNat - 48)
  else if 'a' ≤ c && c ≤ 'f' then some (c.toNat - 87)
  else none

/-- Parse a big-endian string of hex digits. -/
def parseHexChars (cs : List Char) : Option Nat :=
  cs.foldl (fun acc c => acc.bind fun a => (hexVal c).map fun v => 16 * a + v)
    (some 0)

/-- Split a character list on `'-'` separators. -/
def splitDash : List Char → List (List Char)
  | [] => [[]]
  | c :: cs =>
    if c = '-' then [] :: splitDash cs
    else
      match splitDash cs with
      | [] => [[c]]
      | g :: gs => (c :: g) :: gs

/-- Modelled from the spec: the missing Propagator's text encoding of a
`SpanContext` — W3C-trace-context-compatible
`00-<32 hex trace id>-<16 hex span id>-<2 hex flags>` (§4.2). -/
def encodeChars (c : SpanContext) : List Char :=
  '0' :: '0' :: '-' ::
    (hexChars 32 c.traceId ++ '-' ::
      (hexChars 16 c.spanId ++ '-' ::
        ['0', if c.sampled then '1' else '0']))

/-- The encoded `traceparent` header value. -/
def encodeCtx (c : SpanContext) : String := ⟨encodeChars c⟩

/-- A carrier is a string-keyed header map (§4.2). -/
abbrev Carrier := List (String × String)

/-- First value bound to a key in a carrier. -/
def carrierGet (k : String) : Carrier → Option String
  | [] => none
  | (k2, v) :: rest => if k2 == k then some v else carrierGet k rest

/-- Modelled from the spec: the missing Propagator's `Inject` — writes the
trace id, span id and flags into the caller-supplied carrier under the
`traceparent` header (§4.2). -/
def Inject (c : SpanContext) (carrier : Carrier) : Carrier :=
  ("traceparent", encodeCtx c) :: carrier

/-- Parse one `traceparent` value: four dash-separated hex groups of
widths 2, 32, 16, 2; anything else is malformed. -/
def parseTraceparent (v : String) : Option SpanContext :=
  match splitDash v.data with
  | [ver, tid, sid, fl] =>
    if ver.length == 2 && tid.length == 32 && sid.length == 16 && fl.length == 2 then
      match parseHexChars ver, parseHexChars tid, parseHexChars sid, parseHexChars fl with
      | some _, some t, some s, some f =>
        some { traceId := t, spanId := s, sampled := f % 2 == 1 }
      | _, _, _, _ => none
    else none
  | _ => none

/-- Modelled from the spec: the missing Propagator's `Extract` — parses the
`traceparent` header from an inbound carrier and returns `none` (never an
error) when the header is absent or malformed (§4.2). -/
def Extract (carrier : Carrier) : Option SpanContext :=
  match carrierGet "traceparent" carrier with
  | none => none
  | some v => parseTraceparent v

/-- Span status (§3). -/
inductive SpanStatus where
  | unset | okStatus | errorStatus
deriving DecidableEq

/-- Modelled from the spec: the missing SDK's `Span` — a single timed
operation with its own context, optional parent span id, timestamps,
attributes and status (§3); `end_time` is unset while open. -/
structure Span where
  name : String
  context : SpanContext
  parentSpanId : Option Nat
  startTime : Nat
  endTime : Option Nat
  attributes : List (String × String)
  status : SpanStatus
deriving DecidableEq

/-- Trace-id minted for a new root span; the generator value is reduced to
128 bits. -/
def mintTraceId (g : Nat) : Nat := g % 2 ^ 128

/-- Span-id minted for every new span; the generator value is reduced to
64 bits. -/
def mintSpanId (g : Nat) : Nat := g % 2 ^ 64

/-- Modelled from the spec: the missing Tracer's `StartSpan` (§4.1) — with
a parent context the trace id and sampling flag are inherited and
`parent_span_id` is the parent's span id; without one a fresh trace id is
minted, the span is a root, and the default always-sample policy applies.
`g` is the fresh-id generator state, `t` the clock reading. -/
def StartSpan (name : String) (parent : Option SpanContext) (g t : Nat) : Span :=
  match parent with
  | some p =>
    { name := name
      context := { traceId := p.traceId, spanId := mintSpanId g, sampled := p.sampled }
      parentSpanId := some p.spanId
      startTime := t, endTime := none, attributes := [], status := .unset }
  | none =>
    { name := name
      context := { traceId := mintTraceId g, spanId := mintSpanId g, sampled := true }
      parentSpanId := none
      startTime := t, endTime := none, attributes := [], status := .unset }

/-- Result of `EndSpan` (§4.1): `alreadyEnded` signals the caller error of
ending a span twice. -/
inductive EndResult where
  | okEnd | alreadyEnded
deriving DecidableEq

/-- Modelled from the spec: the missing Tracer's `EndSpan` (§4.1) — sets
`end_time` exactly once; a second call signals `AlreadyEnded` and returns
the span unchanged (the immutability invariant). -/
def EndSpan (sp : Span) (t : Nat) : EndResult × Span :=
  match sp.endTime with
  | some _ => (.alreadyEnded, sp)
  | none => (.okEnd, { sp with endTime := some t })

/-- An in-process call structure in left-child right-sibling form: `node
name children siblings` runs `name`, then its nested calls, then the
following sibling calls at the same level. -/
inductive CallTree where
  | nil : CallTree
  | node (name : String) (children siblings : CallTree) : CallTree

/-- The spans produced by a call structure, in the same shape. -/
inductive SpanTree where
  | nil : SpanTree
  | node (span : Span) (children siblings : SpanTree) : SpanTree

/-- Modelled from the spec: running a call structure under the Tracer —
each call starts a span as a child of the current span, its nested calls
run with that span current, and leaving the call restores the previous
current span (§4.1's scoped current-span discipline).  `g` is the
fresh-id generator, incremented per span. -/
def runCalls (g : Nat) (parent : SpanContext) : CallTree → SpanTree × Nat
  | .nil => (.nil, g)
  | .node name children siblings =>
    let sp := StartSpan name (some parent) g 0
    let cr := runCalls (g + 1) sp.context children
    let sr := runCalls cr.2 parent siblings
    (.node sp cr.1 sr.1, sr.2)

/-- Every span of the tree carries the given trace id. -/
def allTraceId (tid : Nat) : SpanTree → Bool
  | .nil => true
  | .node sp c s => sp.context.traceId == tid && allTraceId tid c && allTraceId tid s

/-- Every span's `parent_span_id` is the span id of its immediate caller,
`pid` being the span id of the caller of the tree's top level. -/
def wellParented (pid : Nat) : SpanTree → Bool
  | .nil => true
  | .node sp c s =>
    sp.parentSpanId == some pid && wellParented sp.context.spanId c && wellParented pid s

/-! ### BatchProcessor (§4.3) -/

/-- Configuration of the BatchProcessor (§6): maximum batch size, bounded
queue capacity, retry count and backoff base. -/
structure BatchConfig where
  maxBatchSize : Nat
  maxQueueSize : Nat
  maxRetries : Nat
  backoffBase : Nat

/-- Modelled from the spec: the BatchProcessor's observable state — the
buffer of ended spans awaiting export, the sizes of the export calls made
so far, the backoff waits performed, and the dropped-span counter (§4.3). -/
structure ProcState where
  buffer : List Span
  calls : List Nat
  waits : List Nat
  dropped : Nat
deriving DecidableEq

/-- The empty initial processor state. -/
def initProc : ProcState := { buffer := [], calls := [], waits := [], dropped := 0 }

/-- Index of the first successful export attempt among `n` tries, where
the exporter oracle maps the attempt number to success or failure. -/
def firstSuccess (exporter : Nat → Bool) : Nat → Option Nat
  | 0 => none
  | n + 1 =>
    match firstSuccess exporter n with
    | some i => some i
    | none => if exporter n then some n else none

/-- Number of export attempts actually made: up to and including the first
success, or all `n` when every attempt fails. -/
def attemptsUsed (exporter : Nat → Bool) (n : Nat) : Nat :=
  match firstSuccess exporter n with
  | some i => i + 1
  | none => n

/-- Modelled from the spec: flushing the current batch (§4.3) — the export
is attempted up to `1 + maxRetries` times with exponential backoff between
attempts; on total failure the batch is dropped and the dropped-span
counter grows by the batch size.  Nothing is ever raised to callers:
the outcome is only this state. -/
def flushBatch (exporter : Nat → Bool) (cfg : BatchConfig) (st : ProcState) :
    ProcState :=
  if st.buffer = [] then st
  else
    let n := st.buffer.length
    let tries := attemptsUsed exporter (cfg.maxRetries + 1)
    { buffer := []
      calls := st.calls ++ List.replicate tries n
      waits := st.waits ++ (List.range (tries - 1)).map (fun i => cfg.backoffBase * 2 ^ i)
      dropped := st.dropped +
        (match firstSuccess exporter (cfg.maxRetries + 1) with
         | some _ => 0
         | none => n) }

/-- Modelled from the spec: `OnSpanEnd` (§4.3) — enqueue the ended span,
shedding it (dropped-counter increment) when the bounded queue is full;
when the buffer reaches the configured maximum batch size the batch is
flushed at once, without waiting for the maximum delay. -/
def OnSpanEnd (exporter : Nat → Bool) (cfg : BatchConfig) (st : ProcState)
    (sp : Span) : ProcState :=
  if cfg.maxQueueSize ≤ st.buffer.length then { st with dropped := st.dropped + 1 }
  else if cfg.maxBatchSize ≤ st.buffer.length + 1 then
    flushBatch exporter cfg { st with buffer := st.buffer ++ [sp] }
  else { st with buffer := st.buffer ++ [sp] }

/-- Modelled from the spec: the background task's maximum-delay trigger
(§4.3) — when the configured delay elapses the pending batch is flushed
regardless of its size. -/
def onDelayElapsed (exporter : Nat → Bool) (cfg : BatchConfig) (st : ProcState) :
    ProcState :=
  flushBatch exporter cfg st

/-- A throwaway span used to drive processor scenarios. -/
def mkSpan (i : Nat) : Span :=
  { name := "span" ++ toString i
    context := { traceId := 1, spanId := i, sampled := true }
    parentSpanId := none, startTime := i, endTime := some (i + 1)
    attributes := [], status := .unset }

/-- The batch-size-10 scenario configuration (queue ample, no retries
needed since its exporter always succeeds). -/
def scenarioCfg : BatchConfig :=
  { maxBatchSize := 10, maxQueueSize := 100, maxRetries := 3, backoffBase := 1 }

/-- State after ending 25 spans in quick succession (no delay trigger). -/
def scenarioAfter25 : ProcState :=
  ((List.range 25).map mkSpan).foldl (OnSpanEnd (fun _ => true) scenarioCfg) initProc

/-! ## Lemmas -/

theorem hexChar_ne_dash (d : Nat) (h : d < 16) : hexChar d ≠ '-' := by
  interval_cases d <;> decide

theorem hexVal_hexChar (d : Nat) (h : d < 16) : hexVal (hexChar d) = some d := by
  interval_cases d <;> decide

theorem hexChars_length (k : Nat) : ∀ n, (hexChars k n).length = k := by
  induction k with
  | zero => intro n; rfl
  | succ k ih => intro n; simp [hexChars, ih]

theorem hexChars_no_dash (k : Nat) : ∀ n, ∀ c ∈ hexChars k n, c ≠ '-' := by
  induction k with
  | zero => intro n c hc; simp [hexChars] at hc
  | succ k ih =>
    intro n c hc
    simp only [hexChars, List.mem_append, List.mem_singleton] at hc
    rcases hc with hc | hc
    · exact ih _ c hc
    · exact hc ▸ hexChar_ne_dash _ (Nat.mod_lt _ (by norm_num))

theorem parseHexChars_append_one (cs : List Char) (c : Char) :
    parseHexChars (cs ++ [c]) =
      (parseHexChars cs).bind fun a => (hexVal c).map fun v => 16 * a + v := by
  simp [parseHexChars, List.foldl_append]

theorem parseHexChars_hexChars (k : Nat) :
    ∀ n, n < 16 ^ k → parseHexChars (hexChars k n) = some n := by
  induction k with
  | zero =>
    intro n hn
    interval_cases n
    rfl
  | succ k ih =>
    intro n hn
    have hdiv : n / 16 < 16 ^ k := by
      rw [Nat.div_lt_iff_lt_mul (by norm_num : 0 < 16)]
      calc n < 16 ^ (k + 1) := hn
        _ = 16 ^ k * 16 := by ring
    rw [hexChars, parseHexChars_append_one, ih _ hdiv,
      hexVal_hexChar _ (Nat.mod_lt _ (by norm_num))]
    simp [Nat.div_add_mod]

theorem splitDash_append (xs ys : List Char) (h : ∀ c ∈ xs, c ≠ '-') :
    splitDash (xs ++ '-' :: ys) = xs :: splitDash ys := by
  induction xs with
  | nil => simp [splitDash]
  | cons x xs ih =>
    have hx : x ≠ '-' := h x (by simp)
    have hxs : ∀ c ∈ xs, c ≠ '-' := fun c hc => h c (by simp [hc])
    simp only [List.cons_append, splitDash, if_neg hx, List.append_eq, ih hxs]

theorem splitDash_encodeChars (c : SpanContext) :
    splitDash (encodeChars c) =
      [['0', '0'], hexChars 32 c.traceId, hexChars 16 c.spanId,
        ['0', if c.sampled then '1' else '0']] := by
  have h1 : splitDash (encodeChars c) =
      ['0', '0'] :: splitDash (hexChars 32 c.traceId ++ '-' ::
        (hexChars 16 c.spanId ++ '-' :: ['0', if c.sampled then '1' else '0'])) := by
    have := splitDash_append ['0', '0']
      (hexChars 32 c.traceId ++ '-' ::
        (hexChars 16 c.spanId ++ '-' :: ['0', if c.sampled then '1' else '0']))
      (by decide)
    simpa [encodeChars] using this
  rw [h1, splitDash_append _ _ (hexChars_no_dash 32 c.traceId),
    splitDash_append _ _ (hexChars_no_dash 16 c.spanId)]
  cases c.sampled <;> simp [splitDash]

theorem parseTraceparent_encodeCtx (c : SpanContext) (hv : validContext c) :
    parseTraceparent (encodeCtx c) = some c := by
  obtain ⟨t, s, smp⟩ := c
  obtain ⟨h1, h2⟩ := hv
  have htid : parseHexChars (hexChars 32 t) = some t :=
    parseHexChars_hexChars 32 t (by norm_num at h1 ⊢; exact h1)
  have hsid : parseHexChars (hexChars 16 s) = some s :=
    parseHexChars_hexChars 16 s (by norm_num at h2 ⊢; exact h2)
  have hver : parseHexChars ['0', '0'] = some 0 := by decide
  have hfl1 : parseHexChars ['0', '1'] = some 1 := by decide
  cases smp <;>
  · rw [parseTraceparent.eq_def,
      show (encodeCtx ⟨t, s, _⟩).data = encodeChars ⟨t, s, _⟩ from rfl,
      splitDash_encodeChars]
    simp [hexChars_length, htid, hsid, hver, hfl1]

theorem extract_inject (c : SpanContext) (hv : validContext c) (carrier : Carrier) :
    Extract (Inject c carrier) = some c := by
  have hget : carrierGet "traceparent" (Inject c carrier) = some (encodeCtx c) := by
    simp [Inject, carrierGet]
  rw [Extract.eq_def, hget]
  exact parseTraceparent_encodeCtx c hv

theorem firstSuccess_always_true (n : Nat) :
    firstSuccess (fun _ => true) (n + 1) = some 0 := by
  induction n with
  | zero => rfl
  | succ n ih => rw [firstSuccess, ih]

theorem firstSuccess_always_false (n : Nat) :
    firstSuccess (fun _ => false) n = none := by
  induction n with
  | zero => rfl
  | succ n ih => simp [firstSuccess, ih]

theorem flushBatch_success (cfg : BatchConfig) (st : ProcState)
    (hne : st.buffer ≠ []) :
    flushBatch (fun _ => true) cfg st =
      { buffer := [], calls := st.calls ++ [st.buffer.length],
        waits := st.waits, dropped := st.dropped } := by
  rw [flushBatch, if_neg hne]
  simp [attemptsUsed, firstSuccess_always_true]

theorem flushBatch_failure (cfg : BatchConfig) (st : ProcState)
    (hne : st.buffer ≠ []) :
    flushBatch (fun _ => false) cfg st =
      { buffer := []
        calls := st.calls ++ List.replicate (cfg.maxRetries + 1) st.buffer.length
        waits := st.waits ++
          (List.range cfg.maxRetries).map (fun i => cfg.backoffBase * 2 ^ i)
        dropped := st.dropped + st.buffer.length } := by
  rw [flushBatch, if_neg hne]
  simp [attemptsUsed, firstSuccess_always_false]

theorem runCalls_allTraceId (t : CallTree) :
    ∀ g p, allTraceId p.traceId (runCalls g p t).1 = true := by
  induction t with
  | nil => intro g p; rfl
  | node name c s ihc ihs =>
    intro g p
    simp only [runCalls, allTraceId, StartSpan, Bool.and_eq_true, beq_iff_eq]
    exact ⟨⟨trivial, ihc (g + 1) ⟨p.traceId, mintSpanId g, p.sampled⟩⟩, ihs _ p⟩

theorem runCalls_wellParented (t : CallTree) :
    ∀ g p, wellParented p.spanId (runCalls g p t).1 = true := by
  induction t with
  | nil => intro g p; rfl
  | node name c s ihc ihs =>
    intro g p
    simp only [runCalls, wellParented, StartSpan, Bool.and_eq_true, beq_iff_eq]
    exact ⟨⟨trivial, ihc (g + 1) ⟨p.traceId, mintSpanId g, p.sampled⟩⟩, ihs _ p⟩

/-! ## Claims -/

/-- C2: for every valid SpanContext `c` (128-bit trace id, 64-bit span id,
sampled flag), injecting `c` into an empty carrier and then extracting
yields `c` back unchanged: `Extract (Inject c {}) = c`. -/
theorem C2_inject_extract_roundtrip (c : SpanContext) (h : validContext c) :
    Extract (Inject c []) = some c :=
  extract_inject c h []

theorem C2_witness :
    Extract (Inject ⟨291, 4660, true⟩ []) = some ⟨291, 4660, true⟩ :=
  C2_inject_extract_roundtrip ⟨291, 4660, true⟩ (by constructor <;> norm_num)

/-- C5: Extract is total — it is a function into `Option SpanContext`, so
no outcome other than `some`/`none` exists — and it returns `none` on the
empty carrier, on any carrier lacking the `traceparent` header, and on
malformed header values; the Tracer given such a carrier starts a new
root trace (no parent, freshly minted trace id). -/
theorem C5_extract_never_fatal :
    Extract [] = none ∧
    (∀ carrier, carrierGet "traceparent" carrier = none → Extract carrier = none) ∧
    Extract [("traceparent", "garbage")] = none ∧
    Extract [("traceparent", "00-abc-def-01")] = none ∧
    Extract [("traceparent", "zz-0af7651916cd43dd8448eb211c80319c-b7ad6b7169203331-01")] = none ∧
    Extract [("traceparent", "00-0AF7651916CD43DD8448EB211C80319C-B7AD6B7169203331-01")] = none ∧
    (∀ carrier name g t, Extract carrier = none →
      (StartSpan name (Extract carrier) g t).parentSpanId = none ∧
      (StartSpan name (Extract carrier) g t).context.traceId = mintTraceId g) := by
  refine ⟨rfl, ?_, by decide, by decide, by decide, by decide, ?_⟩
  · intro carrier h
    rw [Extract.eq_def, h]
  · intro carrier name g t h
    rw [h]
    exact ⟨rfl, rfl⟩

theorem C5_witness :
    Extract [("host", "frontend")] = none ∧
    (StartSpan "GET /users" (Extract [("host", "frontend")]) 7 3).parentSpanId = none := by
  have h1 : Extract [("host", "frontend")] = none :=
    C5_extract_never_fatal.2.1 [("host", "frontend")] (by decide)
  exact ⟨h1, (C5_extract_never_fatal.2.2.2.2.2.2 [("host", "frontend")] "GET /users" 7 3 h1).1⟩

/-- C6: ending an open span records the end time; calling EndSpan again on
the already-ended span signals `AlreadyEnded` and returns the span
unchanged, so the first end time is preserved and the ended span is never
mutated; in general EndSpan on any already-ended span is an error that
leaves the span untouched. -/
theorem C6_end_span_already_ended (sp : Span) (t1 t2 : Nat) (h : sp.endTime = none) :
    (EndSpan sp t1).1 = .okEnd ∧
    (EndSpan sp t1).2.endTime = some t1 ∧
    EndSpan (EndSpan sp t1).2 t2 = (.alreadyEnded, (EndSpan sp t1).2) ∧
    (∀ sp2 t, sp2.endTime ≠ none → EndSpan sp2 t = (.alreadyEnded, sp2)) := by
  refine ⟨?_, ?_, ?_, ?_⟩
  · rw [EndSpan, h]
  · rw [EndSpan, h]
  · have h2 : (EndSpan sp t1).2.endTime = some t1 := by rw [EndSpan, h]
    rw [EndSpan.eq_def, h2]
  · intro sp2 t h2
    match h3 : sp2.endTime with
    | none => exact absurd h3 h2
    | some u => rw [EndSpan, h3]

theorem C6_witness :
    (EndSpan (StartSpan "op" none 0 5) 9).1 = .okEnd ∧
    (EndSpan (StartSpan "op" none 0 5) 9).2.endTime = some 9 ∧
    EndSpan (EndSpan (StartSpan "op" none 0 5) 9).2 30 =
      (.alreadyEnded, (EndSpan (StartSpan "op" none 0 5) 9).2) := by
  have h := C6_end_span_already_ended (StartSpan "op" none 0 5) 9 30 (by decide)
  exact ⟨h.1, h.2.1, h.2.2.1⟩

/-- C3: a span started with a parent context inherits the parent's trace id
(and sampling flag) and records the parent's span id as `parent_span_id`;
every span produced by an in-process call structure run under one root
context carries that context's trace id, and each span's parent span id is
the span id of its immediate caller; and in the two-service scenario —
service A starts root span `"outer"`, injects its context into a header
map, service B extracts that map and starts child `"inner"` — B's span has
A's trace id and `parent_span_id` equal to A's span id. -/
theorem C3_trace_parentage :
    (∀ name p g t,
      (StartSpan name (some p) g t).context.traceId = p.traceId ∧
      (StartSpan name (some p) g t).parentSpanId = some p.spanId ∧
      (StartSpan name (some p) g t).context.sampled = p.sampled) ∧
    (∀ tr g p, allTraceId p.traceId (runCalls g p tr).1 = true ∧
      wellParented p.spanId (runCalls g p tr).1 = true) ∧
    (∀ g1 g2 t1 t2,
      (StartSpan "inner"
        (Extract (Inject (StartSpan "outer" none g1 t1).context [])) g2 t2).context.traceId =
        (StartSpan "outer" none g1 t1).context.traceId ∧
      (StartSpan "inner"
        (Extract (Inject (StartSpan "outer" none g1 t1).context [])) g2 t2).parentSpanId =
        some (StartSpan "outer" none g1 t1).context.spanId) := by
  refine ⟨fun name p g t => ⟨rfl, rfl, rfl⟩,
    fun tr g p => ⟨runCalls_allTraceId tr g p, runCalls_wellParented tr g p⟩,
    ?_⟩
  intro g1 g2 t1 t2
  have hv : validContext (StartSpan "outer" none g1 t1).context := by
    constructor
    · exact Nat.mod_lt _ (by norm_num)
    · exact Nat.mod_lt _ (by norm_num)
  rw [extract_inject _ hv []]
  exact ⟨rfl, rfl⟩

/-- C4: the BatchProcessor exports as soon as the buffered-span count
reaches the configured maximum batch size (no flush occurs below it, and
no delay trigger is involved); in the scenario with max batch size 10 and
25 spans ended in quick succession, two size-triggered export calls of 10
spans have already happened when the delay finally elapses and flushes the
remaining 5 — exactly 3 export calls of 10, 10 and 5 spans. -/
theorem C4_size_trigger :
    (∀ cfg st sp, st.buffer.length + 1 = cfg.maxBatchSize →
      st.buffer.length < cfg.maxQueueSize →
      (OnSpanEnd (fun _ => true) cfg st sp).buffer = [] ∧
      (OnSpanEnd (fun _ => true) cfg st sp).calls = st.calls ++ [cfg.maxBatchSize]) ∧
    (∀ cfg st sp, st.buffer.length + 1 < cfg.maxBatchSize →
      st.buffer.length < cfg.maxQueueSize →
      (OnSpanEnd (fun _ => true) cfg st sp).calls = st.calls) ∧
    scenarioAfter25.calls = [10, 10] ∧
    scenarioAfter25.buffer.length = 5 ∧
    (onDelayElapsed (fun _ => true) scenarioCfg scenarioAfter25).calls = [10, 10, 5] ∧
    (onDelayElapsed (fun _ => true) scenarioCfg scenarioAfter25).buffer = [] := by
  refine ⟨?_, ?_, by decide, by decide, by decide, by decide⟩
  · intro cfg st sp h1 h2
    have hq : ¬ cfg.maxQueueSize ≤ st.buffer.length := not_le.mpr h2
    have hb : cfg.maxBatchSize ≤ st.buffer.length + 1 := le_of_eq h1.symm
    rw [OnSpanEnd, if_neg hq, if_pos hb,
      flushBatch_success _ _ (by simp)]
    constructor
    · rfl
    · simp [h1]
  · intro cfg st sp h1 h2
    have hq : ¬ cfg.maxQueueSize ≤ st.buffer.length := not_le.mpr h2
    have hb : ¬ cfg.maxBatchSize ≤ st.buffer.length + 1 := not_le.mpr h1
    rw [OnSpanEnd, if_neg hq, if_neg hb]

theorem C4_witness :
    (OnSpanEnd (fun _ => true) scenarioCfg
      { buffer := (List.range 9).map mkSpan, calls := [7], waits := [], dropped := 0 }
      (mkSpan 9)).buffer = [] ∧
    (OnSpanEnd (fun _ => true) scenarioCfg
      { buffer := (List.range 9).map mkSpan, calls := [7], waits := [], dropped := 0 }
      (mkSpan 9)).calls = [7] ++ [10] := by
  exact C4_size_trigger.1 scenarioCfg
    { buffer := (List.range 9).map mkSpan, calls := [7], waits := [], dropped := 0 }
    (mkSpan 9) (by decide) (by decide)

/-- C7: when every export attempt fails, flushing retries the export a
bounded number of times (the configured retry count plus the initial
attempt) with exponential backoff waits, then discards the batch and
increments the dropped-span counter by exactly the batch size; the
`OnSpanEnd` entry point is a total function into processor states —
nothing is raised to the instrumented business logic — and a
size-triggered flush through it accounts the whole batch as dropped. -/
theorem C7_export_failure_drops :
    (∀ cfg st, st.buffer ≠ [] →
      flushBatch (fun _ => false) cfg st =
        { buffer := []
          calls := st.calls ++ List.replicate (cfg.maxRetries + 1) st.buffer.length
          waits := st.waits ++
            (List.range cfg.maxRetries).map (fun i => cfg.backoffBase * 2 ^ i)
          dropped := st.dropped + st.buffer.length }) ∧
    (∀ cfg st sp, st.buffer.length + 1 = cfg.maxBatchSize →
      st.buffer.length < cfg.maxQueueSize →
      (OnSpanEnd (fun _ => false) cfg st sp).dropped = st.dropped + cfg.maxBatchSize ∧
      (OnSpanEnd (fun _ => false) cfg st sp).buffer = []) := by
  refine ⟨flushBatch_failure, ?_⟩
  intro cfg st sp h1 h2
  have hq : ¬ cfg.maxQueueSize ≤ st.buffer.length := not_le.mpr h2
  have hb : cfg.maxBatchSize ≤ st.buffer.length + 1 := le_of_eq h1.symm
  rw [OnSpanEnd, if_neg hq, if_pos hb,
    flushBatch_failure _ _ (by simp)]
  constructor
  · simp [h1]
  · rfl

theorem C7_witness :
    (flushBatch (fun _ => false) scenarioCfg
        { buffer := (List.range 5).map mkSpan, calls := [], waits := [], dropped := 2 }).dropped = 7 ∧
    (flushBatch (fun _ => false) scenarioCfg
        { buffer := (List.range 5).map mkSpan, calls := [], waits := [], dropped := 2 }).calls =
      List.replicate 4 5 ∧
    (flushBatch (fun _ => false) scenarioCfg
        { buffer := (List.range 5).map mkSpan, calls := [], waits := [], dropped := 2 }).waits =
      [1, 2, 4] := by
  have h := C7_export_failure_drops.1 scenarioCfg
    { buffer := (List.range 5).map mkSpan, calls := [], waits := [], dropped := 2 }
    (by decide)
  rw [h]
  refine ⟨by decide, by decide, by decide⟩

/-- C1 counterexample: when the upstream body is a JSON array (not an
object), the frontend `/api/users` TODO handler answers 200 with the
wrapped body, while the solution handler's extra span-attribute
computation `data.get("data", {})` raises `AttributeError`, which escapes
the `except requests.RequestException` clause — an observable
request/response difference, so the two files do not differ only by
instrumentation. -/
theorem C1_counterexample :
    frontend_get_users_todo (.success 200 (.arr [])) =
      .ok 200 (.obj [("source", .str "frontend"), ("data", .arr [])]) ∧
    frontend_get_users_sol (.success 200 (.arr [])) = .crash ∧
    frontend_get_users_todo (.success 200 (.arr [])) ≠
      frontend_get_users_sol (.success 200 (.arr [])) := by
  refine ⟨rfl, rfl, ?_⟩
  intro h
  simp only [frontend_get_users_todo, frontend_get_users_sol, usersCountAttr,
    pyGetD, pyLen, errBody] at h
  exact HandlerResult.noConfusion h

/-- C1 (amended): every TODO/solution handler pair of the three services
produces the identical status code and response body on every upstream
outcome — except the frontend `/api/users` pair, which agrees on every
failure and on every success whose body lets the solution's `users.count`
attribute computation succeed; in the composed three-tier system (the
repository's own backend and database-service upstream, any combination
of network-hop failures) every route of every service answers identically
under the TODO files and under the solution files. -/
theorem C1_solution_refines_todo :
    (∀ r, frontend_get_orders_todo r = frontend_get_orders_sol r) ∧
    (∀ r, frontend_get_products_todo r = frontend_get_products_sol r) ∧
    frontend_health_todo = frontend_health_sol ∧
    frontend_index_todo = frontend_index_sol ∧
    (∀ key r, backend_route_todo key r = backend_route_sol key r) ∧
    backend_health_todo = backend_health_sol ∧
    backend_index_todo = backend_index_sol ∧
    db_get_users_todo = db_get_users_sol ∧
    db_get_orders_todo = db_get_orders_sol ∧
    db_get_products_todo = db_get_products_sol ∧
    db_health_todo = db_health_sol ∧
    db_index_todo = db_index_sol ∧
    (∀ uid, db_get_user_todo USERS uid = db_get_user_sol USERS uid) ∧
    (∀ msg, frontend_get_users_todo (.failure msg) =
      frontend_get_users_sol (.failure msg)) ∧
    (∀ s b, (usersCountAttr b).isSome →
      frontend_get_users_todo (.success s b) = frontend_get_users_sol (.success s b)) ∧
    (∀ fb bd rt, frontendServiceTodo fb bd rt = frontendServiceSol fb bd rt) ∧
    (∀ bd rt, backendServiceTodo bd rt = backendServiceSol bd rt) ∧
    (∀ rt, dbServiceTodo rt = dbServiceSol rt) := by
  refine ⟨fun r => by cases r <;> rfl, fun r => by cases r <;> rfl, rfl, rfl,
    fun key r => by cases r <;> rfl, rfl, rfl, rfl, rfl, rfl, rfl, rfl,
    fun uid => rfl, fun msg => rfl, ?_, ?_, ?_, ?_⟩
  · intro s b h
    obtain ⟨n, hn⟩ := Option.isSome_iff_exists.mp h
    by_cases hs : s ≥ 400 <;>
      simp [frontend_get_users_todo, frontend_get_users_sol, hs, hn]
  · intro fb bd rt
    cases rt <;> cases fb <;> cases bd <;> rfl
  · intro bd rt
    cases rt <;> cases bd <;> rfl
  · intro rt
    cases rt <;> rfl

theorem C1_witness :
    frontend_get_users_todo (.success 200 (.obj [("source", .str "backend"),
        ("count", .num 5), ("data", .obj [("users", .arr [])])])) =
      frontend_get_users_sol (.success 200 (.obj [("source", .str "backend"),
        ("count", .num 5), ("data", .obj [("users", .arr [])])])) := by
  exact C1_solution_refines_todo.2.2.2.2.2.2.2.2.2.2.2.2.2.2.1 200
    (.obj [("source", .str "backend"), ("count", .num 5),
      ("data", .obj [("users", .arr [])])])
    (by simp [usersCountAttr, pyGetD, pyLen])

/-- C8 counterexample: `check_file_has_instrumentation` searches its
patterns unanchored, so it returns True on the shipped frontend TODO file
even though every line containing `FlaskInstrumentor().instrument_app` or
`RequestsInstrumentor().instrument` there starts with `#` (is a comment);
likewise `check_file_has_tracer_setup` accepts a file whose
`trace.set_tracer_provider` occurrence is only inside a comment line. -/
theorem C8_counterexample :
    check_file_has_instrumentation frontendTodoText true = true ∧
    frontendTodoText.all (fun l =>
      !listInfix "FlaskInstrumentor().instrument_app".data l.data ||
        listPrefix "#".data l.data) = true ∧
    frontendTodoText.all (fun l =>
      !listInfix "RequestsInstrumentor().instrument".data l.data ||
        listPrefix "#".data l.data) = true ∧
    check_file_has_tracer_setup
      ["resource = Resource.create(att)",
       "provider = TracerProvider(resource)",
       "# trace.set_tracer_provider(provider)"] = true := by
  refine ⟨by decide, ?_, ?_, by decide⟩ <;> decide

/-- C8 (amended): a file passes `check_file_has_otel_imports` only when
each of the three import patterns literally starts some line of the file
(so only when uncommented, since Python comment lines cannot start with
`from`); on all three shipped TODO files, where those lines exist only
inside comments, `check_file_has_otel_imports` returns False; the texts
of the three solution files satisfy all three check groups (with the
Requests pattern required for frontend and backend only).  The
instrumentation patterns — and the `trace.set_tracer_provider` setup
pattern — are however unanchored substring searches, which the shipped
TODO texts also satisfy. -/
theorem C8_file_checks :
    (∀ content, check_file_has_otel_imports content = true →
      lineStartMatch "from opentelemetry import trace" content = true ∧
      lineStartMatch "from opentelemetry.sdk.trace import TracerProvider" content = true ∧
      lineStartMatch "from opentelemetry.sdk.resources import Resource" content = true) ∧
    check_file_has_otel_imports frontendTodoText = false ∧
    check_file_has_otel_imports backendTodoText = false ∧
    check_file_has_otel_imports databaseTodoText = false ∧
    check_file_has_otel_imports frontendSolutionText = true ∧
    check_file_has_tracer_setup frontendSolutionText = true ∧
    check_file_has_instrumentation frontendSolutionText true = true ∧
    check_file_has_otel_imports backendSolutionText = true ∧
    check_file_has_tracer_setup backendSolutionText = true ∧
    check_file_has_instrumentation backendSolutionText true = true ∧
    check_file_has_otel_imports databaseSolutionText = true ∧
    check_file_has_tracer_setup databaseSolutionText = true ∧
    check_file_has_instrumentation databaseSolutionText false = true ∧
    check_file_has_instrumentation frontendTodoText true = true ∧
    check_file_has_instrumentation backendTodoText true = true ∧
    check_file_has_instrumentation databaseTodoText false = true := by
  refine ⟨?_, by decide⟩
  intro content h
  rw [check_file_has_otel_imports, Bool.and_eq_true, Bool.and_eq_true] at h
  exact ⟨h.1.1, h.1.2, h.2⟩

theorem C8_witness :
    lineStartMatch "from opentelemetry import trace" frontendSolutionText = true :=
  (C8_file_checks.1 frontendSolutionText (by decide)).1

/-- C9 counterexample: invoking the checker as `run.py --task 6` makes the
loop skip every task, so `total_points` stays 0; earned points (0) are
then trivially at least 70% of the counted total (0), yet `main` takes
the `percentage = 0` branch and returns exit status 1 — the claimed
"exactly when" biconditional fails on this input. -/
theorem C9_counterexample :
    totalPoints (some 6) = 0 ∧
    70 * totalPoints (some 6) ≤ 100 * earnedPoints (fun _ => true) (some 6) ∧
    mainExitCode (fun _ => true) (some 6) = 1 := by
  refine ⟨by decide, by decide, by decide⟩

/-- C9 (amended): `main` returns exit status 0 exactly when at least one
task was counted and the earned points are at least 70% of the counted
total; and for any valid single task selection `--task t` (t in 1..5), a
run in which that task passes earns the full counted total (100%) and
exits 0, regardless of the other tasks' outcomes. -/
theorem C9_pass_threshold :
    (∀ results specific, mainExitCode results specific = 0 ↔
      (0 < totalPoints specific ∧
        70 * totalPoints specific ≤ 100 * earnedPoints results specific)) ∧
    (∀ (results : Nat → Bool) (t : Nat), 1 ≤ t → t ≤ 5 → results t = true →
      mainExitCode results (some t) = 0 ∧
      earnedPoints results (some t) = totalPoints (some t)) := by
  constructor
  · intro results specific
    rw [mainExitCode]
    split
    · simp_all
    · simp_all
  · intro results t h1 h5 hr
    interval_cases t <;>
      simp [mainExitCode, totalPoints, earnedPoints, tasksTable, skipTask, hr]

theorem C9_witness :
    mainExitCode (fun n => n == 2) (some 2) = 0 ∧
    earnedPoints (fun n => n == 2) (some 2) = totalPoints (some 2) :=
  C9_pass_threshold.2 (fun n => n == 2) 2 (by decide) (by decide) (by decide)

/-- C10: for every integer user id, the database-service `/db/user/<id>`
handler answers 404 with body `{"error": "User not found"}` exactly when
no row of `USERS` has that id; when a row matches, it answers 200 with
the first matching record; and in both cases the `USERS` table is
returned unmodified. -/
theorem C10_get_user_by_id (uid : Int) :
    ((db_get_user_todo USERS uid).1 =
        .ok 404 (.obj [("error", .str "User not found")]) ↔
      ∀ u ∈ USERS, u.id ≠ uid) ∧
    (∀ u, USERS.find? (fun x => x.id == uid) = some u →
      (db_get_user_todo USERS uid).1 =
        .ok 200 (.obj [("source", .str "database-service"), ("user", userJson u)])) ∧
    (db_get_user_todo USERS uid).2 = USERS := by
  refine ⟨?_, ?_, ?_⟩
  · cases h : USERS.find? (fun x => x.id == uid) with
    | none =>
      simp only [db_get_user_todo, h]
      have := List.find?_eq_none.mp h
      constructor
      · intro _ u hu
        simpa using this u hu
      · intro _
        trivial
    | some u =>
      simp only [db_get_user_todo, h]
      constructor
      · intro hbad
        injection hbad with h1 h2
        exact absurd h1 (by decide)
      · intro hall
        have hmem : u ∈ USERS := List.mem_of_find?_eq_some h
        have hput : u.id = uid := by simpa using List.find?_some h
        exact absurd hput (hall u hmem)
  · intro u h
    simp only [db_get_user_todo, h]
  · cases h : USERS.find? (fun x => x.id == uid) <;> simp [db_get_user_todo, h]

theorem C10_witness :
    (db_get_user_todo USERS 999).1 =
      .ok 404 (.obj [("error", .str "User not found")]) ∧
    (db_get_user_todo USERS 3).1 =
      .ok 200 (.obj [("source", .str "database-service"),
        ("user", userJson ⟨3, "Charlie Brown", "charlie@example.com", "user"⟩)]) := by
  refine ⟨(C10_get_user_by_id 999).1.mpr (by decide), ?_⟩
  exact (C10_get_user_by_id 3).2.1 ⟨3, "Charlie Brown", "charlie@example.com", "user"⟩
    (by decide)
